import Mathlib

/-!
Verification development for the Fossilize state recorder / replayer
(`src/fossilize.cpp`).  The C++ implementation is shallowly embedded:

* the FNV-1a `Hasher` is embedded as the list of 32-bit words fed to it
  (`Hasher := List Nat`), with `hget` performing the FNV-1a fold; this is
  observationally identical to the C++ hasher (which folds word by word)
  while making feed-sequence properties directly expressible;
* `float` fields are represented by their 32-bit bit patterns (the C++
  hasher only ever reinterprets float bits, it never computes with them);
* raw pointers to optional sub-structures become `Option`, inline arrays
  become `List`, `pNext` chains are represented by a `hasPNext : Bool`
  flag (the implementation only ever checks them against null);
* machine integers are `Nat` with explicit `% 2^32` / `% 2^64` where the
  C++ code can overflow or truncate;
* fallible code (`FOSSILIZE_THROW`) returns `Except`.
-/

namespace Fossilize

/-! ## The canonical hasher (`class Hasher`, fossilize.cpp lines 57-130)

The embedding records the exact sequence of 32-bit words fed to the
hasher; `hget` folds them with the FNV-1a step `h = (h * prime) ^ word`
(64-bit multiply wraps modulo 2^64). -/

abbrev Hasher := List Nat

def fnv_offset_basis : Nat := 0xcbf29ce484222325

def fnv_prime : Nat := 0x100000001b3

/-- One FNV-1a step: `h = (h * 0x100000001b3) ^ value` on `uint64_t`. -/
def hstep (h : Nat) (w : Nat) : Nat := ((h * fnv_prime) % 2^64) ^^^ w

/-- `Hasher::u32`: feed one 32-bit word. -/
def hu32 (h : Hasher) (v : Nat) : Hasher := h ++ [v]

/-- `Hasher::s32` is `u32(uint32_t(value))`; fields are stored as their
32-bit patterns already, so this is the same feed. -/
def hs32 (h : Hasher) (v : Nat) : Hasher := hu32 h v

/-- `Hasher::f32` feeds the bitwise reinterpretation of the float; float
fields are modelled as their bit patterns. -/
def hf32 (h : Hasher) (v : Nat) : Hasher := hu32 h v

/-- `Hasher::u64`: low 32-bit half then high half. -/
def hu64 (h : Hasher) (v : Nat) : Hasher :=
  hu32 (hu32 h (v % 2^32)) (v / 2^32 % 2^32)

/-- `Hasher::string`: sentinel `0xff` then each byte as a `u32`. -/
def hstring (h : Hasher) (s : List Nat) : Hasher :=
  s.foldl hu32 (hu32 h 0xff)

/-- `Hasher::data<T>`: each element XORed in, one step per element (the
same operation as `u32` per element). -/
def hdata (h : Hasher) (ws : List Nat) : Hasher :=
  ws.foldl hu32 h

/-- `Hasher::get`: fold the recorded feed sequence with FNV-1a starting
from the offset basis. -/
def hget (h : Hasher) : Nat :=
  h.foldl hstep fnv_offset_basis

/-! ## Vulkan constants used by the implementation -/

def VK_DYNAMIC_STATE_VIEWPORT : Nat := 0
def VK_DYNAMIC_STATE_SCISSOR : Nat := 1
def VK_DYNAMIC_STATE_LINE_WIDTH : Nat := 2
def VK_DYNAMIC_STATE_DEPTH_BIAS : Nat := 3
def VK_DYNAMIC_STATE_BLEND_CONSTANTS : Nat := 4
def VK_DYNAMIC_STATE_DEPTH_BOUNDS : Nat := 5
def VK_DYNAMIC_STATE_STENCIL_COMPARE_MASK : Nat := 6
def VK_DYNAMIC_STATE_STENCIL_WRITE_MASK : Nat := 7
def VK_DYNAMIC_STATE_STENCIL_REFERENCE : Nat := 8

def VK_DESCRIPTOR_TYPE_SAMPLER : Nat := 0
def VK_DESCRIPTOR_TYPE_COMBINED_IMAGE_SAMPLER : Nat := 1

def VK_BLEND_FACTOR_CONSTANT_COLOR : Nat := 10
def VK_BLEND_FACTOR_CONSTANT_ALPHA : Nat := 12

def FOSSILIZE_FORMAT_VERSION : Nat := 1

/-! ## Create-info structures (the seven descriptor kinds)

Handles (`VkSampler`, `VkPipeline`, ...) are opaque 64-bit values,
modelled as `Nat` with `0` for `VK_NULL_HANDLE`.  Float-typed fields
hold 32-bit bit patterns.  `VkBool32` fields hold the raw 32-bit value;
the implementation treats any nonzero value as true. -/

structure SamplerCreateInfo where
  hasPNext : Bool
  flags : Nat
  magFilter : Nat
  minFilter : Nat
  mipmapMode : Nat
  addressModeU : Nat
  addressModeV : Nat
  addressModeW : Nat
  mipLodBias : Nat
  anisotropyEnable : Nat
  maxAnisotropy : Nat
  compareEnable : Nat
  compareOp : Nat
  minLod : Nat
  maxLod : Nat
  borderColor : Nat
  unnormalizedCoordinates : Nat
  deriving Repr, DecidableEq

structure DescriptorSetLayoutBinding where
  binding : Nat
  descriptorType : Nat
  descriptorCount : Nat
  stageFlags : Nat
  pImmutableSamplers : Option (List Nat)
  deriving Repr, DecidableEq

structure DescriptorSetLayoutCreateInfo where
  hasPNext : Bool
  flags : Nat
  /-- `bindingCount` entries of `pBindings`. -/
  pBindings : List DescriptorSetLayoutBinding
  deriving Repr, DecidableEq

def DescriptorSetLayoutCreateInfo.bindingCount
    (ci : DescriptorSetLayoutCreateInfo) : Nat := ci.pBindings.length

structure PushConstantRange where
  stageFlags : Nat
  offset : Nat
  size : Nat
  deriving Repr, DecidableEq

structure PipelineLayoutCreateInfo where
  hasPNext : Bool
  flags : Nat
  /-- `setLayoutCount` set-layout handles (0 for null). -/
  pSetLayouts : List Nat
  pPushConstantRanges : List PushConstantRange
  deriving Repr, DecidableEq

def PipelineLayoutCreateInfo.setLayoutCount
    (ci : PipelineLayoutCreateInfo) : Nat := ci.pSetLayouts.length

def PipelineLayoutCreateInfo.pushConstantRangeCount
    (ci : PipelineLayoutCreateInfo) : Nat := ci.pPushConstantRanges.length

structure ShaderModuleCreateInfo where
  hasPNext : Bool
  flags : Nat
  /-- Size of the code blob in bytes. -/
  codeSize : Nat
  /-- The code blob as 32-bit words (`pCode`); the hasher consumes
  `codeSize / 4` of them. -/
  pCode : List Nat
  deriving Repr, DecidableEq

structure SpecializationMapEntry where
  constantID : Nat
  offset : Nat
  size : Nat
  deriving Repr, DecidableEq

structure SpecializationInfo where
  pMapEntries : List SpecializationMapEntry
  dataSize : Nat
  /-- Raw bytes of `pData`; reads consume `dataSize` of them. -/
  pData : List Nat
  deriving Repr, DecidableEq

def SpecializationInfo.mapEntryCount (s : SpecializationInfo) : Nat :=
  s.pMapEntries.length

structure PipelineShaderStageCreateInfo where
  hasPNext : Bool
  flags : Nat
  stage : Nat
  /-- Shader-module handle. -/
  module : Nat
  /-- Entry-point name: bytes of the NUL-terminated string, without the
  terminator. -/
  pName : List Nat
  pSpecializationInfo : Option SpecializationInfo
  deriving Repr, DecidableEq

structure AttachmentDescription where
  flags : Nat
  format : Nat
  samples : Nat
  loadOp : Nat
  storeOp : Nat
  stencilLoadOp : Nat
  stencilStoreOp : Nat
  initialLayout : Nat
  finalLayout : Nat
  deriving Repr, DecidableEq

structure SubpassDependency where
  srcSubpass : Nat
  dstSubpass : Nat
  srcStageMask : Nat
  dstStageMask : Nat
  srcAccessMask : Nat
  dstAccessMask : Nat
  dependencyFlags : Nat
  deriving Repr, DecidableEq

structure AttachmentReference where
  attachment : Nat
  layout : Nat
  deriving Repr, DecidableEq

structure SubpassDescription where
  flags : Nat
  pipelineBindPoint : Nat
  pInputAttachments : Option (List AttachmentReference)
  pColorAttachments : Option (List AttachmentReference)
  /-- When present, read with `colorAttachmentCount` entries. -/
  pResolveAttachments : Option (List AttachmentReference)
  pDepthStencilAttachment : Option AttachmentReference
  pPreserveAttachments : Option (List Nat)
  deriving Repr, DecidableEq

def SubpassDescription.colorAttachmentCount (s : SubpassDescription) : Nat :=
  (s.pColorAttachments.getD []).length

def SubpassDescription.inputAttachmentCount (s : SubpassDescription) : Nat :=
  (s.pInputAttachments.getD []).length

def SubpassDescription.preserveAttachmentCount (s : SubpassDescription) : Nat :=
  (s.pPreserveAttachments.getD []).length

structure RenderPassCreateInfo where
  hasPNext : Bool
  flags : Nat
  pAttachments : Option (List AttachmentDescription)
  pSubpasses : Option (List SubpassDescription)
  pDependencies : Option (List SubpassDependency)
  deriving Repr, DecidableEq

def RenderPassCreateInfo.attachmentCount (ci : RenderPassCreateInfo) : Nat :=
  (ci.pAttachments.getD []).length

def RenderPassCreateInfo.subpassCount (ci : RenderPassCreateInfo) : Nat :=
  (ci.pSubpasses.getD []).length

def RenderPassCreateInfo.dependencyCount (ci : RenderPassCreateInfo) : Nat :=
  (ci.pDependencies.getD []).length

structure ComputePipelineCreateInfo where
  hasPNext : Bool
  flags : Nat
  stage : PipelineShaderStageCreateInfo
  /-- Pipeline-layout handle. -/
  layout : Nat
  basePipelineHandle : Nat
  /-- `int32_t` in the API; stored as its 32-bit pattern (the hasher and
  the JSON writer only ever use that pattern). -/
  basePipelineIndex : Nat
  deriving Repr, DecidableEq

structure VertexInputAttributeDescription where
  location : Nat
  binding : Nat
  format : Nat
  offset : Nat
  deriving Repr, DecidableEq

structure VertexInputBindingDescription where
  binding : Nat
  stride : Nat
  inputRate : Nat
  deriving Repr, DecidableEq

structure PipelineVertexInputStateCreateInfo where
  hasPNext : Bool
  flags : Nat
  pVertexBindingDescriptions : List VertexInputBindingDescription
  pVertexAttributeDescriptions : List VertexInputAttributeDescription
  deriving Repr, DecidableEq

def PipelineVertexInputStateCreateInfo.vertexAttributeDescriptionCount
    (s : PipelineVertexInputStateCreateInfo) : Nat :=
  s.pVertexAttributeDescriptions.length

def PipelineVertexInputStateCreateInfo.vertexBindingDescriptionCount
    (s : PipelineVertexInputStateCreateInfo) : Nat :=
  s.pVertexBindingDescriptions.length

structure PipelineInputAssemblyStateCreateInfo where
  hasPNext : Bool
  flags : Nat
  topology : Nat
  primitiveRestartEnable : Nat
  deriving Repr, DecidableEq

structure PipelineTessellationStateCreateInfo where
  hasPNext : Bool
  flags : Nat
  patchControlPoints : Nat
  deriving Repr, DecidableEq

structure Viewport where
  x : Nat
  y : Nat
  width : Nat
  height : Nat
  minDepth : Nat
  maxDepth : Nat
  deriving Repr, DecidableEq

structure Rect2D where
  offsetX : Nat
  offsetY : Nat
  extentWidth : Nat
  extentHeight : Nat
  deriving Repr, DecidableEq

structure PipelineViewportStateCreateInfo where
  hasPNext : Bool
  flags : Nat
  viewportCount : Nat
  pViewports : Option (List Viewport)
  scissorCount : Nat
  pScissors : Option (List Rect2D)
  deriving Repr, DecidableEq

structure PipelineRasterizationStateCreateInfo where
  hasPNext : Bool
  flags : Nat
  depthClampEnable : Nat
  rasterizerDiscardEnable : Nat
  polygonMode : Nat
  cullMode : Nat
  frontFace : Nat
  depthBiasEnable : Nat
  depthBiasConstantFactor : Nat
  depthBiasClamp : Nat
  depthBiasSlopeFactor : Nat
  lineWidth : Nat
  deriving Repr, DecidableEq

structure PipelineMultisampleStateCreateInfo where
  hasPNext : Bool
  flags : Nat
  rasterizationSamples : Nat
  sampleShadingEnable : Nat
  minSampleShading : Nat
  /-- When present, read with `ceil(rasterizationSamples / 32)` words. -/
  pSampleMask : Option (List Nat)
  alphaToCoverageEnable : Nat
  alphaToOneEnable : Nat
  deriving Repr, DecidableEq

structure StencilOpState where
  failOp : Nat
  passOp : Nat
  depthFailOp : Nat
  compareOp : Nat
  compareMask : Nat
  writeMask : Nat
  reference : Nat
  deriving Repr, DecidableEq

structure PipelineDepthStencilStateCreateInfo where
  hasPNext : Bool
  flags : Nat
  depthTestEnable : Nat
  depthWriteEnable : Nat
  depthCompareOp : Nat
  depthBoundsTestEnable : Nat
  stencilTestEnable : Nat
  front : StencilOpState
  back : StencilOpState
  minDepthBounds : Nat
  maxDepthBounds : Nat
  deriving Repr, DecidableEq

structure PipelineColorBlendAttachmentState where
  blendEnable : Nat
  srcColorBlendFactor : Nat
  dstColorBlendFactor : Nat
  colorBlendOp : Nat
  srcAlphaBlendFactor : Nat
  dstAlphaBlendFactor : Nat
  alphaBlendOp : Nat
  colorWriteMask : Nat
  deriving Repr, DecidableEq

structure PipelineColorBlendStateCreateInfo where
  hasPNext : Bool
  flags : Nat
  logicOpEnable : Nat
  logicOp : Nat
  pAttachments : List PipelineColorBlendAttachmentState
  /-- The fixed-size `blendConstants[4]` array. -/
  blendConstants : List Nat
  deriving Repr, DecidableEq

def PipelineColorBlendStateCreateInfo.attachmentCount
    (s : PipelineColorBlendStateCreateInfo) : Nat := s.pAttachments.length

structure PipelineDynamicStateCreateInfo where
  hasPNext : Bool
  flags : Nat
  pDynamicStates : List Nat
  deriving Repr, DecidableEq

def PipelineDynamicStateCreateInfo.dynamicStateCount
    (s : PipelineDynamicStateCreateInfo) : Nat := s.pDynamicStates.length

structure GraphicsPipelineCreateInfo where
  hasPNext : Bool
  flags : Nat
  pStages : List PipelineShaderStageCreateInfo
  pVertexInputState : Option PipelineVertexInputStateCreateInfo
  pInputAssemblyState : Option PipelineInputAssemblyStateCreateInfo
  pTessellationState : Option PipelineTessellationStateCreateInfo
  pViewportState : Option PipelineViewportStateCreateInfo
  pRasterizationState : Option PipelineRasterizationStateCreateInfo
  pMultisampleState : Option PipelineMultisampleStateCreateInfo
  pDepthStencilState : Option PipelineDepthStencilStateCreateInfo
  pColorBlendState : Option PipelineColorBlendStateCreateInfo
  pDynamicState : Option PipelineDynamicStateCreateInfo
  /-- Pipeline-layout handle. -/
  layout : Nat
  /-- Render-pass handle. -/
  renderPass : Nat
  subpass : Nat
  basePipelineHandle : Nat
  /-- `int32_t` in the API; stored as its 32-bit pattern. -/
  basePipelineIndex : Nat
  deriving Repr, DecidableEq

def GraphicsPipelineCreateInfo.stageCount (ci : GraphicsPipelineCreateInfo) : Nat :=
  ci.pStages.length

/-! ## Recorder handle-to-hash tables and `get_hash_for_*`
(fossilize.cpp lines 210-216, 1867-1928)

The `std::unordered_map<Handle, Hash>` members are embedded as
association lists with first-match lookup; `m[k] = v` becomes consing
`(k, v)` in front, which shadows any earlier entry. -/

structure HandleToHashMaps where
  sampler_to_index : List (Nat × Nat)
  descriptor_set_layout_to_index : List (Nat × Nat)
  pipeline_layout_to_index : List (Nat × Nat)
  shader_module_to_index : List (Nat × Nat)
  render_pass_to_index : List (Nat × Nat)
  graphics_pipeline_to_index : List (Nat × Nat)
  compute_pipeline_to_index : List (Nat × Nat)
  deriving Repr, DecidableEq

inductive RecordErr
  /-- `get_hash_for_*`: FOSSILIZE_THROW of the handle-not-registered
  message. -/
  | handleNotRegistered
  /-- `remap_*_handle`: FOSSILIZE_THROW of the cannot-find-in-hashmap
  message. -/
  | handleNotInHashmap
  deriving Repr, DecidableEq

def get_hash_for_sampler (t : HandleToHashMaps) (h : Nat) : Except RecordErr Nat :=
  match t.sampler_to_index.lookup h with
  | some v => .ok v
  | none => .error .handleNotRegistered

def get_hash_for_descriptor_set_layout (t : HandleToHashMaps) (h : Nat) :
    Except RecordErr Nat :=
  match t.descriptor_set_layout_to_index.lookup h with
  | some v => .ok v
  | none => .error .handleNotRegistered

def get_hash_for_pipeline_layout (t : HandleToHashMaps) (h : Nat) :
    Except RecordErr Nat :=
  match t.pipeline_layout_to_index.lookup h with
  | some v => .ok v
  | none => .error .handleNotRegistered

def get_hash_for_shader_module (t : HandleToHashMaps) (h : Nat) :
    Except RecordErr Nat :=
  match t.shader_module_to_index.lookup h with
  | some v => .ok v
  | none => .error .handleNotRegistered

def get_hash_for_render_pass (t : HandleToHashMaps) (h : Nat) :
    Except RecordErr Nat :=
  match t.render_pass_to_index.lookup h with
  | some v => .ok v
  | none => .error .handleNotRegistered

def get_hash_for_graphics_pipeline_handle (t : HandleToHashMaps) (h : Nat) :
    Except RecordErr Nat :=
  match t.graphics_pipeline_to_index.lookup h with
  | some v => .ok v
  | none => .error .handleNotRegistered

def get_hash_for_compute_pipeline_handle (t : HandleToHashMaps) (h : Nat) :
    Except RecordErr Nat :=
  match t.compute_pipeline_to_index.lookup h with
  | some v => .ok v
  | none => .error .handleNotRegistered

/-! ## Per-descriptor hash functions (`namespace Hashing`,
fossilize.cpp lines 266-788) -/

/-- `Hashing::compute_hash_sampler` (lines 268-290). -/
def compute_hash_sampler (sampler : SamplerCreateInfo) : Nat :=
  let h : Hasher := []
  let h := hu32 h sampler.flags
  let h := hf32 h sampler.maxAnisotropy
  let h := hf32 h sampler.mipLodBias
  let h := hf32 h sampler.minLod
  let h := hf32 h sampler.maxLod
  let h := hu32 h sampler.minFilter
  let h := hu32 h sampler.magFilter
  let h := hu32 h sampler.mipmapMode
  let h := hu32 h sampler.compareEnable
  let h := hu32 h sampler.compareOp
  let h := hu32 h sampler.anisotropyEnable
  let h := hu32 h sampler.addressModeU
  let h := hu32 h sampler.addressModeV
  let h := hu32 h sampler.addressModeW
  let h := hu32 h sampler.borderColor
  let h := hu32 h sampler.unnormalizedCoordinates
  hget h

/-- `Hashing::compute_hash_descriptor_set_layout` (lines 292-316);
unregistered immutable-sampler handles make it throw. -/
def compute_hash_descriptor_set_layout (t : HandleToHashMaps)
    (layout : DescriptorSetLayoutCreateInfo) : Except RecordErr Nat := do
  let h := hu32 (hu32 ([] : Hasher) layout.bindingCount) layout.flags
  let h ← layout.pBindings.foldlM (fun h binding => do
    let h := hu32 h binding.binding
    let h := hu32 h binding.descriptorCount
    let h := hu32 h binding.descriptorType
    let h := hu32 h binding.stageFlags
    match binding.pImmutableSamplers with
    | some samplers =>
      if binding.descriptorType = VK_DESCRIPTOR_TYPE_COMBINED_IMAGE_SAMPLER ∨
         binding.descriptorType = VK_DESCRIPTOR_TYPE_SAMPLER then
        (samplers.take binding.descriptorCount).foldlM (fun h s => do
          let sh ← get_hash_for_sampler t s
          pure (hu64 h sh)) h
      else
        pure h
    | none => pure h) h
  pure (hget h)

/-- `Hashing::compute_hash_pipeline_layout` (lines 318-343). -/
def compute_hash_pipeline_layout (t : HandleToHashMaps)
    (layout : PipelineLayoutCreateInfo) : Except RecordErr Nat := do
  let h := hu32 ([] : Hasher) layout.setLayoutCount
  let h ← layout.pSetLayouts.foldlM (fun h sl => do
    if sl ≠ 0 then
      let sh ← get_hash_for_descriptor_set_layout t sl
      pure (hu64 h sh)
    else
      pure (hu32 h 0)) h
  let h := hu32 h layout.pushConstantRangeCount
  let h := layout.pPushConstantRanges.foldl (fun h push =>
    hu32 (hu32 (hu32 h push.stageFlags) push.size) push.offset) h
  pure (hget (hu32 h layout.flags))

/-- `Hashing::compute_hash_shader_module` (lines 345-351): the code blob
is fed as `codeSize / sizeof(uint32_t)` words, then the flags. -/
def compute_hash_shader_module (create_info : ShaderModuleCreateInfo) : Nat :=
  let h := hdata ([] : Hasher) (create_info.pCode.take (create_info.codeSize / 4))
  hget (hu32 h create_info.flags)

/-- `Hashing::hash_specialization_info` (lines 353-364). -/
def hash_specialization_info (h : Hasher) (spec : SpecializationInfo) : Hasher :=
  let h := hdata h (spec.pData.take spec.dataSize)
  let h := hu64 h spec.dataSize
  let h := hu32 h spec.mapEntryCount
  spec.pMapEntries.foldl (fun h e =>
    hu32 (hu64 (hu32 h e.offset) e.size) e.constantID) h

/-- The `dynamic_*` booleans of `compute_hash_graphics_pipeline`
(lines 383-433): set when the dynamic-state array contains the given
`VK_DYNAMIC_STATE_*` value. -/
def dynamic_state_contains (ps : Option PipelineDynamicStateCreateInfo)
    (v : Nat) : Bool :=
  match ps with
  | none => false
  | some s => s.pDynamicStates.contains v

/-- The `pDynamicState` block of `compute_hash_graphics_pipeline`
(lines 392-435): present feeds `dynamicStateCount`, `flags`, then each
dynamic-state value; absent feeds `u32(0)`. -/
def hash_dynamic_part (h : Hasher) (ps : Option PipelineDynamicStateCreateInfo) :
    Hasher :=
  match ps with
  | some state =>
    state.pDynamicStates.foldl hu32 (hu32 (hu32 h state.dynamicStateCount) state.flags)
  | none => hu32 h 0

/-- The `pDepthStencilState` block (lines 437-483). -/
def hash_depth_stencil_part (dynamic_depth_bounds dynamic_stencil_compare
    dynamic_stencil_reference dynamic_stencil_write_mask : Bool) (h : Hasher)
    (ps : Option PipelineDepthStencilStateCreateInfo) : Hasher :=
  match ps with
  | none => hu32 h 0
  | some ds =>
    let h := hu32 h ds.flags
    let h := hu32 h ds.depthBoundsTestEnable
    let h := hu32 h ds.depthCompareOp
    let h := hu32 h ds.depthTestEnable
    let h := hu32 h ds.depthWriteEnable
    let h := hu32 h ds.front.compareOp
    let h := hu32 h ds.front.depthFailOp
    let h := hu32 h ds.front.failOp
    let h := hu32 h ds.front.passOp
    let h := hu32 h ds.back.compareOp
    let h := hu32 h ds.back.depthFailOp
    let h := hu32 h ds.back.failOp
    let h := hu32 h ds.back.passOp
    let h := hu32 h ds.stencilTestEnable
    let h :=
      if !dynamic_depth_bounds && ds.depthBoundsTestEnable != 0 then
        hf32 (hf32 h ds.minDepthBounds) ds.maxDepthBounds
      else h
    if ds.stencilTestEnable != 0 then
      let h :=
        if !dynamic_stencil_compare then
          hu32 (hu32 h ds.front.compareMask) ds.back.compareMask
        else h
      let h :=
        if !dynamic_stencil_reference then
          hu32 (hu32 h ds.front.reference) ds.back.reference
        else h
      if !dynamic_stencil_write_mask then
        hu32 (hu32 h ds.front.writeMask) ds.back.writeMask
      else h
    else h

/-- The `pInputAssemblyState` block (lines 485-493). -/
def hash_input_assembly_part (h : Hasher)
    (ps : Option PipelineInputAssemblyStateCreateInfo) : Hasher :=
  match ps with
  | some ia => hu32 (hu32 (hu32 h ia.flags) ia.primitiveRestartEnable) ia.topology
  | none => hu32 h 0

/-- The `pRasterizationState` block (lines 495-517). -/
def hash_rasterization_part (dynamic_depth_bias dynamic_line_width : Bool)
    (h : Hasher) (ps : Option PipelineRasterizationStateCreateInfo) : Hasher :=
  match ps with
  | none => hu32 h 0
  | some rs =>
    let h := hu32 h rs.flags
    let h := hu32 h rs.cullMode
    let h := hu32 h rs.depthClampEnable
    let h := hu32 h rs.frontFace
    let h := hu32 h rs.rasterizerDiscardEnable
    let h := hu32 h rs.polygonMode
    let h := hu32 h rs.depthBiasEnable
    let h :=
      if rs.depthBiasEnable != 0 && !dynamic_depth_bias then
        hf32 (hf32 (hf32 h rs.depthBiasClamp) rs.depthBiasSlopeFactor)
          rs.depthBiasConstantFactor
      else h
    if !dynamic_line_width then hf32 h rs.lineWidth else h

/-- The `pMultisampleState` block (lines 519-536).  Note: unlike every
other sub-state block this one has no `else` branch — an absent
multisample state feeds nothing at all. -/
def hash_multisample_part (h : Hasher)
    (ps : Option PipelineMultisampleStateCreateInfo) : Hasher :=
  match ps with
  | none => h
  | some ms =>
    let h := hu32 h ms.flags
    let h := hu32 h ms.alphaToCoverageEnable
    let h := hu32 h ms.alphaToOneEnable
    let h := hf32 h ms.minSampleShading
    let h := hu32 h ms.rasterizationSamples
    let h := hu32 h ms.sampleShadingEnable
    match ms.pSampleMask with
    | some mask => (mask.take ((ms.rasterizationSamples + 31) / 32)).foldl hu32 h
    | none => hu32 h 0

/-- One scissor rectangle feed of the viewport block (lines 546-552). -/
def hash_scissor_rect (h : Hasher) (s : Rect2D) : Hasher :=
  hu32 (hu32 (hs32 (hs32 h s.offsetX) s.offsetY) s.extentWidth) s.extentHeight

/-- One viewport body feed of the viewport block (lines 557-565). -/
def hash_viewport_body (h : Hasher) (v : Viewport) : Hasher :=
  hf32 (hf32 (hf32 (hf32 (hf32 (hf32 h v.x) v.y) v.width) v.height)
    v.minDepth) v.maxDepth

/-- The `pViewportState` block (lines 538-569). -/
def hash_viewport_part (dynamic_scissor dynamic_viewport : Bool) (h : Hasher)
    (ps : Option PipelineViewportStateCreateInfo) : Hasher :=
  match ps with
  | none => hu32 h 0
  | some vp =>
    let h := hu32 h vp.flags
    let h := hu32 h vp.scissorCount
    let h := hu32 h vp.viewportCount
    let h :=
      if !dynamic_scissor then
        ((vp.pScissors.getD []).take vp.scissorCount).foldl hash_scissor_rect h
      else h
    if !dynamic_viewport then
      ((vp.pViewports.getD []).take vp.viewportCount).foldl hash_viewport_body h
    else h

/-- One vertex-attribute feed of the vertex-input block (lines 578-584). -/
def hash_vertex_attribute (h : Hasher) (a : VertexInputAttributeDescription) :
    Hasher :=
  hu32 (hu32 (hu32 (hu32 h a.offset) a.binding) a.format) a.location

/-- One vertex-binding feed of the vertex-input block (lines 586-591). -/
def hash_vertex_binding (h : Hasher) (b : VertexInputBindingDescription) : Hasher :=
  hu32 (hu32 (hu32 h b.binding) b.inputRate) b.stride

/-- The `pVertexInputState` block (lines 571-594). -/
def hash_vertex_input_part (h : Hasher)
    (ps : Option PipelineVertexInputStateCreateInfo) : Hasher :=
  match ps with
  | none => hu32 h 0
  | some vi =>
    let h := hu32 h vi.flags
    let h := hu32 h vi.vertexAttributeDescriptionCount
    let h := hu32 h vi.vertexBindingDescriptionCount
    let h := vi.pVertexAttributeDescriptions.foldl hash_vertex_attribute h
    vi.pVertexBindingDescriptions.foldl hash_vertex_binding h

/-- Whether one color-blend attachment's factors reference the blend
constants (lines 619-629). -/
def attachment_needs_blend_constants (a : PipelineColorBlendAttachmentState) :
    Bool :=
  a.dstAlphaBlendFactor == VK_BLEND_FACTOR_CONSTANT_ALPHA ||
  a.dstAlphaBlendFactor == VK_BLEND_FACTOR_CONSTANT_COLOR ||
  a.srcAlphaBlendFactor == VK_BLEND_FACTOR_CONSTANT_ALPHA ||
  a.srcAlphaBlendFactor == VK_BLEND_FACTOR_CONSTANT_COLOR ||
  a.dstColorBlendFactor == VK_BLEND_FACTOR_CONSTANT_ALPHA ||
  a.dstColorBlendFactor == VK_BLEND_FACTOR_CONSTANT_COLOR ||
  a.srcColorBlendFactor == VK_BLEND_FACTOR_CONSTANT_ALPHA ||
  a.srcColorBlendFactor == VK_BLEND_FACTOR_CONSTANT_COLOR

/-- One iteration of the per-attachment loop of the color-blend block
(lines 606-633), carrying the hasher and the `need_blend_constants`
accumulator. -/
def hash_blend_attachment (hn : Hasher × Bool)
    (a : PipelineColorBlendAttachmentState) : Hasher × Bool :=
  let h := hu32 hn.1 a.blendEnable
  if a.blendEnable != 0 then
    let h := hu32 h a.colorWriteMask
    let h := hu32 h a.alphaBlendOp
    let h := hu32 h a.colorBlendOp
    let h := hu32 h a.dstAlphaBlendFactor
    let h := hu32 h a.srcAlphaBlendFactor
    let h := hu32 h a.dstColorBlendFactor
    let h := hu32 h a.srcColorBlendFactor
    (h, hn.2 || attachment_needs_blend_constants a)
  else
    (hu32 h 0, hn.2)

/-- The `pColorBlendState` block (lines 596-640).  An enabled attachment
feeds `blendEnable` then its seven blend fields; a disabled one feeds
`blendEnable` (which is 0) then one `u32(0)`. -/
def hash_color_blend_part (dynamic_blend_constants : Bool) (h : Hasher)
    (ps : Option PipelineColorBlendStateCreateInfo) : Hasher :=
  match ps with
  | none => hu32 h 0
  | some b =>
    let h := hu32 h b.flags
    let h := hu32 h b.attachmentCount
    let h := hu32 h b.logicOpEnable
    let h := hu32 h b.logicOp
    let hn := b.pAttachments.foldl hash_blend_attachment (h, false)
    if hn.2 && !dynamic_blend_constants then
      b.blendConstants.foldl hf32 hn.1
    else hn.1

/-- The `pTessellationState` block (lines 642-649). -/
def hash_tessellation_part (h : Hasher)
    (ps : Option PipelineTessellationStateCreateInfo) : Hasher :=
  match ps with
  | some tess => hu32 (hu32 h tess.flags) tess.patchControlPoints
  | none => hu32 h 0

/-- One iteration of the shader-stage loop (lines 651-662). -/
def hash_stage (t : HandleToHashMaps) (h : Hasher)
    (stage : PipelineShaderStageCreateInfo) : Except RecordErr Hasher := do
  let h := hu32 h stage.flags
  let h := hstring h stage.pName
  let h := hu32 h stage.stage
  let mh ← get_hash_for_shader_module t stage.module
  let h := hu64 h mh
  match stage.pSpecializationInfo with
  | some spec => pure (hash_specialization_info h spec)
  | none => pure (hu32 h 0)

/-- `Hashing::compute_hash_graphics_pipeline` (lines 366-665), assembled
from the per-block parts above in the source order. -/
def compute_hash_graphics_pipeline (t : HandleToHashMaps)
    (create_info : GraphicsPipelineCreateInfo) : Except RecordErr Nat := do
  let h := hu32 ([] : Hasher) create_info.flags
  let h ←
    if create_info.basePipelineHandle ≠ 0 then do
      let bh ← get_hash_for_graphics_pipeline_handle t create_info.basePipelineHandle
      pure (hs32 (hu64 h bh) create_info.basePipelineIndex)
    else pure h
  let lh ← get_hash_for_pipeline_layout t create_info.layout
  let rh ← get_hash_for_render_pass t create_info.renderPass
  let h := hu32 (hu32 (hu64 (hu64 h lh) rh) create_info.subpass)
    create_info.stageCount
  let dynamic_stencil_compare :=
    dynamic_state_contains create_info.pDynamicState VK_DYNAMIC_STATE_STENCIL_COMPARE_MASK
  let dynamic_stencil_reference :=
    dynamic_state_contains create_info.pDynamicState VK_DYNAMIC_STATE_STENCIL_REFERENCE
  let dynamic_stencil_write_mask :=
    dynamic_state_contains create_info.pDynamicState VK_DYNAMIC_STATE_STENCIL_WRITE_MASK
  let dynamic_depth_bounds :=
    dynamic_state_contains create_info.pDynamicState VK_DYNAMIC_STATE_DEPTH_BOUNDS
  let dynamic_depth_bias :=
    dynamic_state_contains create_info.pDynamicState VK_DYNAMIC_STATE_DEPTH_BIAS
  let dynamic_line_width :=
    dynamic_state_contains create_info.pDynamicState VK_DYNAMIC_STATE_LINE_WIDTH
  let dynamic_blend_constants :=
    dynamic_state_contains create_info.pDynamicState VK_DYNAMIC_STATE_BLEND_CONSTANTS
  let dynamic_scissor :=
    dynamic_state_contains create_info.pDynamicState VK_DYNAMIC_STATE_SCISSOR
  let dynamic_viewport :=
    dynamic_state_contains create_info.pDynamicState VK_DYNAMIC_STATE_VIEWPORT
  let h := hash_dynamic_part h create_info.pDynamicState
  let h := hash_depth_stencil_part dynamic_depth_bounds dynamic_stencil_compare
    dynamic_stencil_reference dynamic_stencil_write_mask h
    create_info.pDepthStencilState
  let h := hash_input_assembly_part h create_info.pInputAssemblyState
  let h := hash_rasterization_part dynamic_depth_bias dynamic_line_width h
    create_info.pRasterizationState
  let h := hash_multisample_part h create_info.pMultisampleState
  let h := hash_viewport_part dynamic_scissor dynamic_viewport h
    create_info.pViewportState
  let h := hash_vertex_input_part h create_info.pVertexInputState
  let h := hash_color_blend_part dynamic_blend_constants h
    create_info.pColorBlendState
  let h := hash_tessellation_part h create_info.pTessellationState
  let h ← create_info.pStages.foldlM (hash_stage t) h
  pure (hget h)

/-- `Hashing::compute_hash_compute_pipeline` (lines 667-693). -/
def compute_hash_compute_pipeline (t : HandleToHashMaps)
    (create_info : ComputePipelineCreateInfo) : Except RecordErr Nat := do
  let lh ← get_hash_for_pipeline_layout t create_info.layout
  let h := hu32 (hu64 ([] : Hasher) lh) create_info.flags
  let h ←
    if create_info.basePipelineHandle ≠ 0 then do
      let bh ← get_hash_for_compute_pipeline_handle t create_info.basePipelineHandle
      pure (hs32 (hu64 h bh) create_info.basePipelineIndex)
    else pure (hu32 h 0)
  let mh ← get_hash_for_shader_module t create_info.stage.module
  let h := hu64 h mh
  let h := hstring h create_info.stage.pName
  let h := hu32 h create_info.stage.flags
  let h := hu32 h create_info.stage.stage
  match create_info.stage.pSpecializationInfo with
  | some spec => pure (hget (hash_specialization_info h spec))
  | none => pure (hget (hu32 h 0))

/-- `Hashing::hash_attachment` (lines 695-706). -/
def hash_attachment (h : Hasher) (att : AttachmentDescription) : Hasher :=
  let h := hu32 h att.flags
  let h := hu32 h att.initialLayout
  let h := hu32 h att.finalLayout
  let h := hu32 h att.format
  let h := hu32 h att.loadOp
  let h := hu32 h att.storeOp
  let h := hu32 h att.stencilLoadOp
  let h := hu32 h att.stencilStoreOp
  hu32 h att.samples

/-- `Hashing::hash_dependency` (lines 708-717). -/
def hash_dependency (h : Hasher) (dep : SubpassDependency) : Hasher :=
  let h := hu32 h dep.dependencyFlags
  let h := hu32 h dep.dstAccessMask
  let h := hu32 h dep.srcAccessMask
  let h := hu32 h dep.srcSubpass
  let h := hu32 h dep.dstSubpass
  let h := hu32 h dep.srcStageMask
  hu32 h dep.dstStageMask

/-- One attachment-reference feed of `hash_subpass`: `attachment` then
`layout`. -/
def hash_attachment_reference (h : Hasher) (a : AttachmentReference) : Hasher :=
  hu32 (hu32 h a.attachment) a.layout

/-- `Hashing::hash_subpass` (lines 719-758).  The resolve loop reads
`colorAttachmentCount` entries, and runs only when `pResolveAttachments`
is non-null. -/
def hash_subpass (h : Hasher) (subpass : SubpassDescription) : Hasher :=
  let h := hu32 h subpass.flags
  let h := hu32 h subpass.colorAttachmentCount
  let h := hu32 h subpass.inputAttachmentCount
  let h := hu32 h subpass.preserveAttachmentCount
  let h := hu32 h subpass.pipelineBindPoint
  let h := (subpass.pPreserveAttachments.getD []).foldl hu32 h
  let h := (subpass.pColorAttachments.getD []).foldl hash_attachment_reference h
  let h := (subpass.pInputAttachments.getD []).foldl hash_attachment_reference h
  let h :=
    match subpass.pResolveAttachments with
    | some r =>
      (r.take subpass.colorAttachmentCount).foldl hash_attachment_reference h
    | none => h
  match subpass.pDepthStencilAttachment with
  | some d => hu32 (hu32 h d.attachment) d.layout
  | none => hu32 h 0

/-- `Hashing::compute_hash_render_pass` (lines 760-787). -/
def compute_hash_render_pass (create_info : RenderPassCreateInfo) : Nat :=
  let h := hu32 ([] : Hasher) create_info.attachmentCount
  let h := hu32 h create_info.dependencyCount
  let h := hu32 h create_info.subpassCount
  let h := (create_info.pAttachments.getD []).foldl hash_attachment h
  let h := (create_info.pDependencies.getD []).foldl hash_dependency h
  hget ((create_info.pSubpasses.getD []).foldl hash_subpass h)

/-! ## Deep copy (`StateRecorder::Impl::copy_*`, fossilize.cpp
lines 1930-2126)

In the owned embedding, arena copies of arrays are the arrays
themselves (reading `count` elements becomes `List.take count`); the
observable behaviour of `copy_*` is the sequence of `pNext` checks and
— in `copy_graphics_pipeline` — one read through a possibly-null
pointer. -/

inductive CopyErr
  /-- Any of the FOSSILIZE_THROW calls for an unsupported `pNext`
  chain. -/
  | pnextUnsupported
  /-- A read through a null pointer (undefined behaviour in the C++
  source, surfaced explicitly here). -/
  | nullDereference
  deriving Repr, DecidableEq

/-- `copy_shader_module` (lines 1930-1935): the code blob is copied as
`codeSize / sizeof(uint32_t)` words. -/
def copy_shader_module (create_info : ShaderModuleCreateInfo) :
    ShaderModuleCreateInfo :=
  { create_info with pCode := create_info.pCode.take (create_info.codeSize / 4) }

/-- `copy_sampler` (lines 1937-1940). -/
def copy_sampler (create_info : SamplerCreateInfo) : SamplerCreateInfo :=
  create_info

/-- `copy_descriptor_set_layout` (lines 1942-1960): immutable-sampler
arrays are copied (`descriptorCount` entries) only for SAMPLER /
COMBINED_IMAGE_SAMPLER bindings. -/
def copy_descriptor_set_layout (create_info : DescriptorSetLayoutCreateInfo) :
    DescriptorSetLayoutCreateInfo :=
  { create_info with
    pBindings := create_info.pBindings.map (fun b =>
      match b.pImmutableSamplers with
      | some samplers =>
        if b.descriptorType = VK_DESCRIPTOR_TYPE_SAMPLER ∨
           b.descriptorType = VK_DESCRIPTOR_TYPE_COMBINED_IMAGE_SAMPLER then
          { b with pImmutableSamplers := some (samplers.take b.descriptorCount) }
        else b
      | none => b) }

/-- `copy_pipeline_layout` (lines 1962-1968). -/
def copy_pipeline_layout (create_info : PipelineLayoutCreateInfo) :
    PipelineLayoutCreateInfo :=
  create_info

/-- `copy_specialization_info` (lines 1970-1976): `dataSize` bytes of
`pData` are copied. -/
def copy_specialization_info (info : SpecializationInfo) : SpecializationInfo :=
  { info with pData := info.pData.take info.dataSize }

/-- `copy_compute_pipeline` (lines 1978-1987): specialization info is
copied first, then the stage `pNext` check, then the name copy. -/
def copy_compute_pipeline (create_info : ComputePipelineCreateInfo) :
    Except CopyErr ComputePipelineCreateInfo := do
  let stage := { create_info.stage with
    pSpecializationInfo :=
      create_info.stage.pSpecializationInfo.map copy_specialization_info }
  if create_info.stage.hasPNext then
    Except.error CopyErr.pnextUnsupported
  else
    pure { create_info with stage := stage }

/-- `copy_graphics_pipeline` (lines 1989-2101), with the source's exact
check sequence.  Note the block at lines 2008-2013: it is guarded by
`info->pVertexInputState` but reads `info->pColorBlendState->pNext` — a
null-pointer dereference whenever a vertex-input state is present and
the color-blend state is absent. -/
def copy_graphics_pipeline (create_info : GraphicsPipelineCreateInfo) :
    Except CopyErr GraphicsPipelineCreateInfo := do
  -- if (info->pTessellationState) check pNext (lines 1994-1999)
  match create_info.pTessellationState with
  | some t => if t.hasPNext then Except.error CopyErr.pnextUnsupported else pure ()
  | none => pure ()
  -- if (info->pColorBlendState) check pNext (lines 2001-2006)
  match create_info.pColorBlendState with
  | some cb => if cb.hasPNext then Except.error CopyErr.pnextUnsupported else pure ()
  | none => pure ()
  -- if (info->pVertexInputState) check info->pColorBlendState->pNext
  -- (lines 2008-2013): reads through pColorBlendState
  match create_info.pVertexInputState with
  | some _ =>
    match create_info.pColorBlendState with
    | none => Except.error CopyErr.nullDereference
    | some cb => if cb.hasPNext then Except.error CopyErr.pnextUnsupported else pure ()
  | none => pure ()
  -- if (info->pMultisampleState) check pNext (lines 2015-2020)
  match create_info.pMultisampleState with
  | some ms => if ms.hasPNext then Except.error CopyErr.pnextUnsupported else pure ()
  | none => pure ()
  -- if (info->pVertexInputState) check pNext, second copy (lines 2022-2027)
  match create_info.pVertexInputState with
  | some vi => if vi.hasPNext then Except.error CopyErr.pnextUnsupported else pure ()
  | none => pure ()
  -- viewport, input assembly, depth stencil, rasterization, dynamic
  -- (lines 2029-2062)
  match create_info.pViewportState with
  | some vp => if vp.hasPNext then Except.error CopyErr.pnextUnsupported else pure ()
  | none => pure ()
  match create_info.pInputAssemblyState with
  | some ia => if ia.hasPNext then Except.error CopyErr.pnextUnsupported else pure ()
  | none => pure ()
  match create_info.pDepthStencilState with
  | some ds => if ds.hasPNext then Except.error CopyErr.pnextUnsupported else pure ()
  | none => pure ()
  match create_info.pRasterizationState with
  | some rs => if rs.hasPNext then Except.error CopyErr.pnextUnsupported else pure ()
  | none => pure ()
  match create_info.pDynamicState with
  | some dy => if dy.hasPNext then Except.error CopyErr.pnextUnsupported else pure ()
  | none => pure ()
  -- stage loop: pNext check, name and specialization-info copies
  -- (lines 2064-2072)
  if create_info.pStages.any (·.hasPNext) then
    Except.error CopyErr.pnextUnsupported
  else
    pure ()
  let stages := create_info.pStages.map (fun s =>
    { s with pSpecializationInfo := s.pSpecializationInfo.map copy_specialization_info })
  -- color-blend attachment / vertex-input array / sample-mask / dynamic
  -- array copies (lines 2074-2098); the sample mask is copied as
  -- ceil(rasterizationSamples / 32) words
  let pMultisampleState := create_info.pMultisampleState.map (fun ms =>
    { ms with pSampleMask :=
        ms.pSampleMask.map (·.take ((ms.rasterizationSamples + 31) / 32)) })
  pure { create_info with pStages := stages, pMultisampleState := pMultisampleState }

/-- `copy_render_pass` (lines 2103-2126): per subpass, the resolve array
is copied with `colorAttachmentCount` entries. -/
def copy_render_pass (create_info : RenderPassCreateInfo) : RenderPassCreateInfo :=
  { create_info with
    pSubpasses := create_info.pSubpasses.map (fun subs => subs.map (fun sub =>
      { sub with pResolveAttachments :=
          sub.pResolveAttachments.map (·.take sub.colorAttachmentCount) })) }

/-! ## The record queue (`StateRecorder::record_*`, fossilize.cpp
lines 1800-1865)

A queued `WorkItem` carries the runtime handle and the deep-copied
create info; the structure-type tag of the C++ void pointer becomes the
constructor of `WorkInfo`. -/

inductive WorkInfo
  | sampler (ci : SamplerCreateInfo)
  | descriptorSetLayout (ci : DescriptorSetLayoutCreateInfo)
  | pipelineLayout (ci : PipelineLayoutCreateInfo)
  | shaderModule (ci : ShaderModuleCreateInfo)
  | renderPass (ci : RenderPassCreateInfo)
  | graphicsPipeline (ci : GraphicsPipelineCreateInfo)
  | computePipeline (ci : ComputePipelineCreateInfo)
  deriving Repr, DecidableEq

structure WorkItem where
  handle : Nat
  info : WorkInfo
  deriving Repr, DecidableEq

/-- `record_descriptor_set_layout` (lines 1800-1805): no `pNext` check —
the descriptor is copied and enqueued unconditionally. -/
def record_descriptor_set_layout (queue : List WorkItem) (set_layout : Nat)
    (create_info : DescriptorSetLayoutCreateInfo) :
    Except CopyErr (List WorkItem) :=
  .ok (queue ++ [⟨set_layout, .descriptorSetLayout (copy_descriptor_set_layout create_info)⟩])

/-- `record_pipeline_layout` (lines 1807-1812): no `pNext` check. -/
def record_pipeline_layout (queue : List WorkItem) (pipeline_layout : Nat)
    (create_info : PipelineLayoutCreateInfo) : Except CopyErr (List WorkItem) :=
  .ok (queue ++ [⟨pipeline_layout, .pipelineLayout (copy_pipeline_layout create_info)⟩])

/-- `record_sampler` (lines 1814-1821): throws on non-null `pNext`
before anything is enqueued. -/
def record_sampler (queue : List WorkItem) (sampler : Nat)
    (create_info : SamplerCreateInfo) : Except CopyErr (List WorkItem) :=
  if create_info.hasPNext then
    .error .pnextUnsupported
  else
    .ok (queue ++ [⟨sampler, .sampler (copy_sampler create_info)⟩])

/-- `record_graphics_pipeline` (lines 1823-1830). -/
def record_graphics_pipeline (queue : List WorkItem) (pipeline : Nat)
    (create_info : GraphicsPipelineCreateInfo) : Except CopyErr (List WorkItem) :=
  if create_info.hasPNext then
    .error .pnextUnsupported
  else do
    let ci ← copy_graphics_pipeline create_info
    pure (queue ++ [⟨pipeline, .graphicsPipeline ci⟩])

/-- `record_compute_pipeline` (lines 1832-1839). -/
def record_compute_pipeline (queue : List WorkItem) (pipeline : Nat)
    (create_info : ComputePipelineCreateInfo) : Except CopyErr (List WorkItem) :=
  if create_info.hasPNext then
    .error .pnextUnsupported
  else do
    let ci ← copy_compute_pipeline create_info
    pure (queue ++ [⟨pipeline, .computePipeline ci⟩])

/-- `record_render_pass` (lines 1841-1848). -/
def record_render_pass (queue : List WorkItem) (render_pass : Nat)
    (create_info : RenderPassCreateInfo) : Except CopyErr (List WorkItem) :=
  if create_info.hasPNext then
    .error .pnextUnsupported
  else
    .ok (queue ++ [⟨render_pass, .renderPass (copy_render_pass create_info)⟩])

/-- `record_shader_module` (lines 1850-1857). -/
def record_shader_module (queue : List WorkItem) (module : Nat)
    (create_info : ShaderModuleCreateInfo) : Except CopyErr (List WorkItem) :=
  if create_info.hasPNext then
    .error .pnextUnsupported
  else
    .ok (queue ++ [⟨module, .shaderModule (copy_shader_module create_info)⟩])

/-! ## Handle remapping (`remap_*`, fossilize.cpp lines 2128-2243) -/

def remap_sampler_handle (t : HandleToHashMaps) (sampler : Nat) :
    Except RecordErr Nat :=
  match t.sampler_to_index.lookup sampler with
  | some v => .ok v
  | none => .error .handleNotInHashmap

def remap_descriptor_set_layout_handle (t : HandleToHashMaps) (layout : Nat) :
    Except RecordErr Nat :=
  match t.descriptor_set_layout_to_index.lookup layout with
  | some v => .ok v
  | none => .error .handleNotInHashmap

def remap_pipeline_layout_handle (t : HandleToHashMaps) (layout : Nat) :
    Except RecordErr Nat :=
  match t.pipeline_layout_to_index.lookup layout with
  | some v => .ok v
  | none => .error .handleNotInHashmap

def remap_shader_module_handle (t : HandleToHashMaps) (module : Nat) :
    Except RecordErr Nat :=
  match t.shader_module_to_index.lookup module with
  | some v => .ok v
  | none => .error .handleNotInHashmap

def remap_render_pass_handle (t : HandleToHashMaps) (render_pass : Nat) :
    Except RecordErr Nat :=
  match t.render_pass_to_index.lookup render_pass with
  | some v => .ok v
  | none => .error .handleNotInHashmap

def remap_graphics_pipeline_handle (t : HandleToHashMaps) (pipeline : Nat) :
    Except RecordErr Nat :=
  match t.graphics_pipeline_to_index.lookup pipeline with
  | some v => .ok v
  | none => .error .handleNotInHashmap

def remap_compute_pipeline_handle (t : HandleToHashMaps) (pipeline : Nat) :
    Except RecordErr Nat :=
  match t.compute_pipeline_to_index.lookup pipeline with
  | some v => .ok v
  | none => .error .handleNotInHashmap

/-- `remap_descriptor_set_layout_ci` (lines 2184-2198): the first
`descriptorCount` immutable-sampler handles of qualifying bindings are
rewritten in place. -/
def remap_descriptor_set_layout_ci (t : HandleToHashMaps)
    (info : DescriptorSetLayoutCreateInfo) :
    Except RecordErr DescriptorSetLayoutCreateInfo := do
  let bindings ← info.pBindings.mapM (fun b =>
    match b.pImmutableSamplers with
    | some samplers =>
      if b.descriptorType = VK_DESCRIPTOR_TYPE_SAMPLER ∨
         b.descriptorType = VK_DESCRIPTOR_TYPE_COMBINED_IMAGE_SAMPLER then do
        let pre ← (samplers.take b.descriptorCount).mapM (remap_sampler_handle t)
        let remapped := pre ++ samplers.drop b.descriptorCount
        pure { b with pImmutableSamplers := some remapped }
      else pure b
    | none => pure b)
  pure { info with pBindings := bindings }

/-- `remap_pipeline_layout_ci` (lines 2200-2204): every set-layout
handle is remapped, with no null check. -/
def remap_pipeline_layout_ci (t : HandleToHashMaps)
    (info : PipelineLayoutCreateInfo) : Except RecordErr PipelineLayoutCreateInfo := do
  let layouts ← info.pSetLayouts.mapM (remap_descriptor_set_layout_handle t)
  pure { info with pSetLayouts := layouts }

/-- `remap_shader_module_ci` (lines 2206-2209): nothing to do. -/
def remap_shader_module_ci (info : ShaderModuleCreateInfo) : ShaderModuleCreateInfo :=
  info

/-- `remap_graphics_pipeline_ci` (lines 2211-2223). -/
def remap_graphics_pipeline_ci (t : HandleToHashMaps)
    (info : GraphicsPipelineCreateInfo) :
    Except RecordErr GraphicsPipelineCreateInfo := do
  let renderPass ← remap_render_pass_handle t info.renderPass
  let layout ← remap_pipeline_layout_handle t info.layout
  let base ←
    if info.basePipelineHandle ≠ 0 then
      remap_graphics_pipeline_handle t info.basePipelineHandle
    else pure info.basePipelineHandle
  let stages ← info.pStages.mapM (fun s => do
    let m ← remap_shader_module_handle t s.module
    pure { s with module := m })
  pure { info with renderPass := renderPass, layout := layout
                   basePipelineHandle := base, pStages := stages }

/-- `remap_compute_pipeline_ci` (lines 2225-2233). -/
def remap_compute_pipeline_ci (t : HandleToHashMaps)
    (info : ComputePipelineCreateInfo) : Except RecordErr ComputePipelineCreateInfo := do
  let m ← remap_shader_module_handle t info.stage.module
  let base ←
    if info.basePipelineHandle ≠ 0 then
      remap_compute_pipeline_handle t info.basePipelineHandle
    else pure info.basePipelineHandle
  let layout ← remap_pipeline_layout_handle t info.layout
  pure { info with stage := { info.stage with module := m }
                   basePipelineHandle := base, layout := layout }

/-! ## The worker (`StateRecorder::Impl::record_task`, fossilize.cpp
lines 2270-2378)

One dequeued item is processed as: compute the content hash (a throw
here is caught and leaves the state untouched), assign
`handle -> hash`, and if the hash is not yet stored, remap the copy (a
throw here is caught after the handle assignment) and insert it into
the store.  The serialization writes for shader modules and pipelines
go to disk and do not change the recorder state, so they do not appear
in the state transition. -/

structure RecorderState where
  tables : HandleToHashMaps
  descriptor_sets : List (Nat × DescriptorSetLayoutCreateInfo)
  pipeline_layouts : List (Nat × PipelineLayoutCreateInfo)
  shader_modules : List (Nat × ShaderModuleCreateInfo)
  graphics_pipelines : List (Nat × GraphicsPipelineCreateInfo)
  compute_pipelines : List (Nat × ComputePipelineCreateInfo)
  render_passes : List (Nat × RenderPassCreateInfo)
  samplers : List (Nat × SamplerCreateInfo)
  deriving Repr, DecidableEq

/-- The content hash the worker computes for one queued item, against
the current handle-to-hash tables. -/
def work_item_hash (t : HandleToHashMaps) : WorkInfo → Except RecordErr Nat
  | .sampler ci => .ok (compute_hash_sampler ci)
  | .descriptorSetLayout ci => compute_hash_descriptor_set_layout t ci
  | .pipelineLayout ci => compute_hash_pipeline_layout t ci
  | .shaderModule ci => .ok (compute_hash_shader_module ci)
  | .renderPass ci => .ok (compute_hash_render_pass ci)
  | .graphicsPipeline ci => compute_hash_graphics_pipeline t ci
  | .computePipeline ci => compute_hash_compute_pipeline t ci

/-- Processing of one dequeued item by `record_task`, with the
source's catch-and-continue semantics: partial effects made before a
throw persist. -/
def record_task_step (s : RecorderState) (item : WorkItem) : RecorderState :=
  match item.info with
  | .sampler ci =>
    let hash := compute_hash_sampler ci
    let s1 := { s with tables := { s.tables with
      sampler_to_index := (item.handle, hash) :: s.tables.sampler_to_index } }
    if (s.samplers.lookup hash).isSome then s1
    else { s1 with samplers := (hash, ci) :: s1.samplers }
  | .descriptorSetLayout ci =>
    match compute_hash_descriptor_set_layout s.tables ci with
    | .error _ => s
    | .ok hash =>
      let s1 := { s with tables := { s.tables with
        descriptor_set_layout_to_index :=
          (item.handle, hash) :: s.tables.descriptor_set_layout_to_index } }
      if (s.descriptor_sets.lookup hash).isSome then s1
      else
        match remap_descriptor_set_layout_ci s1.tables ci with
        | .error _ => s1
        | .ok ci' => { s1 with descriptor_sets := (hash, ci') :: s1.descriptor_sets }
  | .pipelineLayout ci =>
    match compute_hash_pipeline_layout s.tables ci with
    | .error _ => s
    | .ok hash =>
      let s1 := { s with tables := { s.tables with
        pipeline_layout_to_index :=
          (item.handle, hash) :: s.tables.pipeline_layout_to_index } }
      if (s.pipeline_layouts.lookup hash).isSome then s1
      else
        match remap_pipeline_layout_ci s1.tables ci with
        | .error _ => s1
        | .ok ci' => { s1 with pipeline_layouts := (hash, ci') :: s1.pipeline_layouts }
  | .renderPass ci =>
    let hash := compute_hash_render_pass ci
    let s1 := { s with tables := { s.tables with
      render_pass_to_index := (item.handle, hash) :: s.tables.render_pass_to_index } }
    if (s.render_passes.lookup hash).isSome then s1
    else { s1 with render_passes := (hash, ci) :: s1.render_passes }
  | .shaderModule ci =>
    let hash := compute_hash_shader_module ci
    let s1 := { s with tables := { s.tables with
      shader_module_to_index := (item.handle, hash) :: s.tables.shader_module_to_index } }
    if (s.shader_modules.lookup hash).isSome then s1
    else { s1 with shader_modules := (hash, ci) :: s1.shader_modules }
  | .graphicsPipeline ci =>
    match compute_hash_graphics_pipeline s.tables ci with
    | .error _ => s
    | .ok hash =>
      let s1 := { s with tables := { s.tables with
        graphics_pipeline_to_index :=
          (item.handle, hash) :: s.tables.graphics_pipeline_to_index } }
      if (s.graphics_pipelines.lookup hash).isSome then s1
      else
        match remap_graphics_pipeline_ci s1.tables ci with
        | .error _ => s1
        | .ok ci' => { s1 with graphics_pipelines := (hash, ci') :: s1.graphics_pipelines }
  | .computePipeline ci =>
    match compute_hash_compute_pipeline s.tables ci with
    | .error _ => s
    | .ok hash =>
      let s1 := { s with tables := { s.tables with
        compute_pipeline_to_index :=
          (item.handle, hash) :: s.tables.compute_pipeline_to_index } }
      if (s.compute_pipelines.lookup hash).isSome then s1
      else
        match remap_compute_pipeline_ci s1.tables ci with
        | .error _ => s1
        | .ok ci' => { s1 with compute_pipelines := (hash, ci') :: s1.compute_pipelines }

/-! ## Base64 codec (fossilize.cpp lines 2380-2430 and 790-854)

Characters are represented by their ASCII codes (the C code works on
`char` bytes); 61 is the code of the padding character.  Bit-ors of
disjoint bit ranges in the source are written as sums, shifts as
division / multiplication by powers of two. -/

/-- `base64` (lines 2380-2392): map a 6-bit value to its alphabet
character code. -/
def base64_char (v : Nat) : Nat :=
  if v = 63 then 47
  else if v = 62 then 43
  else if v ≥ 52 then 48 + (v - 52)
  else if v ≥ 26 then 97 + (v - 26)
  else 65 + v

/-- `encode_base64` (lines 2394-2430): three input bytes per group; the
last group pads with 61 when only one or two bytes remain. -/
def encode_base64 : List Nat → List Nat
  | [] => []
  | [b0] =>
    let code := b0 * 2^16
    [base64_char (code / 2^18 % 64), base64_char (code / 2^12 % 64), 61, 61]
  | [b0, b1] =>
    let code := b0 * 2^16 + b1 * 2^8
    [base64_char (code / 2^18 % 64), base64_char (code / 2^12 % 64),
     base64_char (code / 2^6 % 64), 61]
  | b0 :: b1 :: b2 :: rest =>
    let code := b0 * 2^16 + b1 * 2^8 + b2
    base64_char (code / 2^18 % 64) :: base64_char (code / 2^12 % 64) ::
      base64_char (code / 2^6 % 64) :: base64_char (code % 64) ::
      encode_base64 rest

/-- The `base64_index` lambda of `decode_base64` (lines 795-808). -/
def base64_index (c : Nat) : Nat :=
  if 65 ≤ c ∧ c ≤ 90 then c - 65
  else if 97 ≤ c ∧ c ≤ 122 then c - 97 + 26
  else if 48 ≤ c ∧ c ≤ 57 then c - 48 + 52
  else if c = 43 then 62
  else if c = 47 then 63
  else 0

/-- `decode_base64` (lines 790-854): while fewer than `length` output
bytes have been produced, read one four-character group (breaking if the
string ends) and emit one, two or three bytes depending on the padding.
Each emitted byte is the `uint8_t` truncation of a 24-bit group
value. -/
def decode_base64 (length : Nat) (s : List Nat) : List Nat :=
  if _hl : length = 0 then []
  else
    match s with
    | c0 :: c1 :: c2 :: c3 :: rest =>
      let values := base64_index c0 * 2^18 + base64_index c1 * 2^12 +
        base64_index c2 * 2^6 + base64_index c3
      if c2 = 61 ∧ c3 = 61 then
        values / 2^16 % 256 :: decode_base64 (length - 1) rest
      else if c3 = 61 then
        values / 2^16 % 256 :: values / 2^8 % 256 :: decode_base64 (length - 2) rest
      else
        values / 2^16 % 256 :: values / 2^8 % 256 :: values % 256 ::
          decode_base64 (length - 3) rest
    | _ => []
termination_by length
decreasing_by
  all_goals omega

/-- Little-endian view of a 32-bit word array as bytes (the in-memory
layout `encode_base64` reads when given a `pCode` pointer). -/
def words_to_bytes : List Nat → List Nat
  | [] => []
  | w :: ws =>
    w % 256 :: w / 2^8 % 256 :: w / 2^16 % 256 :: w / 2^24 % 256 ::
      words_to_bytes ws

/-- Little-endian reinterpretation of a byte buffer as 32-bit words (the
`reinterpret_cast<uint32_t*>` applied to decoded shader code). -/
def bytes_to_words : List Nat → List Nat
  | b0 :: b1 :: b2 :: b3 :: rest =>
    (b0 + b1 * 2^8 + b2 * 2^16 + b3 * 2^24) :: bytes_to_words rest
  | _ => []

/-! ## The on-disk document model (fossilize.cpp lines 2432-2926)

One structure per JSON object shape the serializer emits; a member the
serializer adds only conditionally is an `Option` field.  Hash-keyed
maps are association lists in insertion order; hex-string hash keys and
references are the hashes themselves (the hex codec is the out-of-scope
text layer). -/

structure SamplerJson where
  flags : Nat
  minFilter : Nat
  magFilter : Nat
  maxAnisotropy : Nat
  compareOp : Nat
  anisotropyEnable : Nat
  mipmapMode : Nat
  addressModeU : Nat
  addressModeV : Nat
  addressModeW : Nat
  borderColor : Nat
  unnormalizedCoordinates : Nat
  compareEnable : Nat
  mipLodBias : Nat
  minLod : Nat
  maxLod : Nat
  deriving Repr, DecidableEq

structure BindingJson where
  descriptorType : Nat
  descriptorCount : Nat
  stageFlags : Nat
  binding : Nat
  immutableSamplers : Option (List Nat)
  deriving Repr, DecidableEq

structure SetLayoutJson where
  flags : Nat
  bindings : List BindingJson
  deriving Repr, DecidableEq

structure PipelineLayoutJson where
  flags : Nat
  pushConstantRanges : List PushConstantRange
  setLayouts : List Nat
  deriving Repr, DecidableEq

structure ShaderModuleJson where
  flags : Nat
  codeSize : Nat
  /-- Base64 character codes. -/
  code : List Nat
  deriving Repr, DecidableEq

structure SubpassJson where
  flags : Nat
  pipelineBindPoint : Nat
  preserveAttachments : Option (List Nat)
  inputAttachments : Option (List AttachmentReference)
  colorAttachments : Option (List AttachmentReference)
  resolveAttachments : Option (List AttachmentReference)
  depthStencilAttachment : Option AttachmentReference
  deriving Repr, DecidableEq

structure RenderPassJson where
  flags : Nat
  dependencies : Option (List SubpassDependency)
  attachments : Option (List AttachmentDescription)
  subpasses : List SubpassJson
  deriving Repr, DecidableEq

structure SpecializationInfoJson where
  dataSize : Nat
  /-- Base64 character codes. -/
  data : List Nat
  mapEntries : List SpecializationMapEntry
  deriving Repr, DecidableEq

structure StageJson where
  flags : Nat
  name : List Nat
  module : Nat
  stage : Nat
  specializationInfo : Option SpecializationInfoJson
  deriving Repr, DecidableEq

structure ComputePipelineJson where
  flags : Nat
  layout : Nat
  basePipelineHandle : Nat
  basePipelineIndex : Nat
  stage : StageJson
  deriving Repr, DecidableEq

structure TessellationStateJson where
  flags : Nat
  patchControlPoints : Nat
  deriving Repr, DecidableEq

structure DynamicStateJson where
  flags : Nat
  dynamicState : List Nat
  deriving Repr, DecidableEq

structure MultisampleStateJson where
  flags : Nat
  rasterizationSamples : Nat
  sampleShadingEnable : Nat
  minSampleShading : Nat
  alphaToOneEnable : Nat
  alphaToCoverageEnable : Nat
  sampleMask : Option (List Nat)
  deriving Repr, DecidableEq

structure VertexInputStateJson where
  flags : Nat
  attributes : List VertexInputAttributeDescription
  bindings : List VertexInputBindingDescription
  deriving Repr, DecidableEq

structure RasterizationStateJson where
  flags : Nat
  depthBiasConstantFactor : Nat
  depthBiasSlopeFactor : Nat
  depthBiasClamp : Nat
  depthBiasEnable : Nat
  depthClampEnable : Nat
  polygonMode : Nat
  rasterizerDiscardEnable : Nat
  frontFace : Nat
  lineWidth : Nat
  cullMode : Nat
  deriving Repr, DecidableEq

structure InputAssemblyStateJson where
  flags : Nat
  topology : Nat
  primitiveRestartEnable : Nat
  deriving Repr, DecidableEq

structure ColorBlendStateJson where
  flags : Nat
  logicOp : Nat
  logicOpEnable : Nat
  blendConstants : List Nat
  attachments : List PipelineColorBlendAttachmentState
  deriving Repr, DecidableEq

structure ViewportStateJson where
  flags : Nat
  viewportCount : Nat
  scissorCount : Nat
  viewports : Option (List Viewport)
  scissors : Option (List Rect2D)
  deriving Repr, DecidableEq

structure DepthStencilStateJson where
  flags : Nat
  stencilTestEnable : Nat
  maxDepthBounds : Nat
  minDepthBounds : Nat
  depthBoundsTestEnable : Nat
  depthWriteEnable : Nat
  depthTestEnable : Nat
  depthCompareOp : Nat
  front : StencilOpState
  back : StencilOpState
  deriving Repr, DecidableEq

structure GraphicsPipelineJson where
  flags : Nat
  basePipelineHandle : Nat
  basePipelineIndex : Nat
  layout : Nat
  renderPass : Nat
  subpass : Nat
  tessellationState : Option TessellationStateJson
  dynamicState : Option DynamicStateJson
  multisampleState : Option MultisampleStateJson
  vertexInputState : Option VertexInputStateJson
  rasterizationState : Option RasterizationStateJson
  inputAssemblyState : Option InputAssemblyStateJson
  colorBlendState : Option ColorBlendStateJson
  viewportState : Option ViewportStateJson
  depthStencilState : Option DepthStencilStateJson
  stages : List StageJson
  deriving Repr, DecidableEq

structure Document where
  version : Nat
  shaderModules : Option (List (Nat × ShaderModuleJson))
  samplers : Option (List (Nat × SamplerJson))
  setLayouts : Option (List (Nat × SetLayoutJson))
  pipelineLayouts : Option (List (Nat × PipelineLayoutJson))
  renderPasses : Option (List (Nat × RenderPassJson))
  computePipelines : Option (List (Nat × ComputePipelineJson))
  graphicsPipelines : Option (List (Nat × GraphicsPipelineJson))
  deriving Repr, DecidableEq

/-! ## `json_value` serializers (fossilize.cpp lines 2440-2926) -/

/-- `json_value(VkSamplerCreateInfo)` (lines 2440-2461). -/
def json_value_sampler (sampler : SamplerCreateInfo) : SamplerJson :=
  { flags := sampler.flags
    minFilter := sampler.minFilter
    magFilter := sampler.magFilter
    maxAnisotropy := sampler.maxAnisotropy
    compareOp := sampler.compareOp
    anisotropyEnable := sampler.anisotropyEnable
    mipmapMode := sampler.mipmapMode
    addressModeU := sampler.addressModeU
    addressModeV := sampler.addressModeV
    addressModeW := sampler.addressModeW
    borderColor := sampler.borderColor
    unnormalizedCoordinates := sampler.unnormalizedCoordinates
    compareEnable := sampler.compareEnable
    mipLodBias := sampler.mipLodBias
    minLod := sampler.minLod
    maxLod := sampler.maxLod }

/-- `json_value(VkDescriptorSetLayoutCreateInfo)` (lines 2463-2489):
immutable samplers are emitted (with `descriptorCount` entries) whenever
the pointer is non-null, regardless of descriptor type. -/
def json_value_descriptor_set_layout (layout : DescriptorSetLayoutCreateInfo) :
    SetLayoutJson :=
  { flags := layout.flags
    bindings := layout.pBindings.map (fun b =>
      { descriptorType := b.descriptorType
        descriptorCount := b.descriptorCount
        stageFlags := b.stageFlags
        binding := b.binding
        immutableSamplers := b.pImmutableSamplers.map (·.take b.descriptorCount) }) }

/-- `json_value(VkPipelineLayoutCreateInfo)` (lines 2491-2512). -/
def json_value_pipeline_layout (layout : PipelineLayoutCreateInfo) :
    PipelineLayoutJson :=
  { flags := layout.flags
    pushConstantRanges := layout.pPushConstantRanges
    setLayouts := layout.pSetLayouts }

/-- `json_value(VkShaderModuleCreateInfo)` (lines 2514-2522): the code
blob is base64-encoded from its `codeSize`-byte little-endian memory
image. -/
def json_value_shader_module (module : ShaderModuleCreateInfo) : ShaderModuleJson :=
  { flags := module.flags
    codeSize := module.codeSize
    code := encode_base64 ((words_to_bytes module.pCode).take module.codeSize) }

/-- One subpass of `json_value(VkRenderPassCreateInfo)`
(lines 2574-2640): each attachment array is emitted only when its
pointer is non-null; resolves are emitted with `colorAttachmentCount`
entries. -/
def subpass_json (sub : SubpassDescription) : SubpassJson :=
  { flags := sub.flags
    pipelineBindPoint := sub.pipelineBindPoint
    preserveAttachments := sub.pPreserveAttachments
    inputAttachments := sub.pInputAttachments
    colorAttachments := sub.pColorAttachments
    resolveAttachments := sub.pResolveAttachments.map (·.take sub.colorAttachmentCount)
    depthStencilAttachment := sub.pDepthStencilAttachment }

/-- `json_value(VkRenderPassCreateInfo)` (lines 2524-2643). -/
def json_value_render_pass (pass : RenderPassCreateInfo) : RenderPassJson :=
  { flags := pass.flags
    dependencies := pass.pDependencies
    attachments := pass.pAttachments
    subpasses := (pass.pSubpasses.getD []).map subpass_json }

/-- The specialization-info block shared by the pipeline serializers
(lines 2658-2677 and 2902-2921). -/
def specialization_info_json (spec : SpecializationInfo) : SpecializationInfoJson :=
  { dataSize := spec.dataSize
    data := encode_base64 (spec.pData.take spec.dataSize)
    mapEntries := spec.pMapEntries }

/-- The shader-stage block of the pipeline serializers. -/
def stage_json (s : PipelineShaderStageCreateInfo) : StageJson :=
  { flags := s.flags
    name := s.pName
    module := s.module
    stage := s.stage
    specializationInfo := s.pSpecializationInfo.map specialization_info_json }

/-- `json_value(VkComputePipelineCreateInfo)` (lines 2645-2680). -/
def json_value_compute_pipeline (pipe : ComputePipelineCreateInfo) :
    ComputePipelineJson :=
  { flags := pipe.flags
    layout := pipe.layout
    basePipelineHandle := pipe.basePipelineHandle
    basePipelineIndex := pipe.basePipelineIndex
    stage := stage_json pipe.stage }

/-- `json_value(VkGraphicsPipelineCreateInfo)` (lines 2682-2926). -/
def json_value_graphics_pipeline (pipe : GraphicsPipelineCreateInfo) :
    GraphicsPipelineJson :=
  { flags := pipe.flags
    basePipelineHandle := pipe.basePipelineHandle
    basePipelineIndex := pipe.basePipelineIndex
    layout := pipe.layout
    renderPass := pipe.renderPass
    subpass := pipe.subpass
    tessellationState := pipe.pTessellationState.map (fun t =>
      { flags := t.flags, patchControlPoints := t.patchControlPoints })
    dynamicState := pipe.pDynamicState.map (fun d =>
      { flags := d.flags, dynamicState := d.pDynamicStates })
    multisampleState := pipe.pMultisampleState.map (fun ms =>
      { flags := ms.flags
        rasterizationSamples := ms.rasterizationSamples
        sampleShadingEnable := ms.sampleShadingEnable
        minSampleShading := ms.minSampleShading
        alphaToOneEnable := ms.alphaToOneEnable
        alphaToCoverageEnable := ms.alphaToCoverageEnable
        sampleMask := ms.pSampleMask.map (·.take ((ms.rasterizationSamples + 31) / 32)) })
    vertexInputState := pipe.pVertexInputState.map (fun vi =>
      { flags := vi.flags
        attributes := vi.pVertexAttributeDescriptions
        bindings := vi.pVertexBindingDescriptions })
    rasterizationState := pipe.pRasterizationState.map (fun rs =>
      { flags := rs.flags
        depthBiasConstantFactor := rs.depthBiasConstantFactor
        depthBiasSlopeFactor := rs.depthBiasSlopeFactor
        depthBiasClamp := rs.depthBiasClamp
        depthBiasEnable := rs.depthBiasEnable
        depthClampEnable := rs.depthClampEnable
        polygonMode := rs.polygonMode
        rasterizerDiscardEnable := rs.rasterizerDiscardEnable
        frontFace := rs.frontFace
        lineWidth := rs.lineWidth
        cullMode := rs.cullMode })
    inputAssemblyState := pipe.pInputAssemblyState.map (fun ia =>
      { flags := ia.flags
        topology := ia.topology
        primitiveRestartEnable := ia.primitiveRestartEnable })
    colorBlendState := pipe.pColorBlendState.map (fun cb =>
      { flags := cb.flags
        logicOp := cb.logicOp
        logicOpEnable := cb.logicOpEnable
        blendConstants := cb.blendConstants
        attachments := cb.pAttachments })
    viewportState := pipe.pViewportState.map (fun vp =>
      { flags := vp.flags
        viewportCount := vp.viewportCount
        scissorCount := vp.scissorCount
        viewports := vp.pViewports.map (·.take vp.viewportCount)
        scissors := vp.pScissors.map (·.take vp.scissorCount) })
    depthStencilState := pipe.pDepthStencilState.map (fun ds =>
      { flags := ds.flags
        stencilTestEnable := ds.stencilTestEnable
        maxDepthBounds := ds.maxDepthBounds
        minDepthBounds := ds.minDepthBounds
        depthBoundsTestEnable := ds.depthBoundsTestEnable
        depthWriteEnable := ds.depthWriteEnable
        depthTestEnable := ds.depthTestEnable
        depthCompareOp := ds.depthCompareOp
        front := ds.front
        back := ds.back })
    stages := pipe.pStages.map stage_json }

/-! ## Dependency-closure serialization
(`StateRecorder::serialize_graphics_pipeline`, fossilize.cpp
lines 2928-2995) -/

/-- `AddMember` guarded by `HasMember` (inside `serialize_obj`,
lines 2931-2939): append unless the key is already present. -/
def add_json {α : Type} (m : List (Nat × α)) (k : Nat) (v : α) : List (Nat × α) :=
  if (m.lookup k).isSome then m else m ++ [(k, v)]

/-- `serialize_obj` (lines 2928-2940): look the hash up in a store; when
found, add its JSON value to the section map (if not already there) and
return the stored create info. -/
def serialize_obj {β α : Type} (store : List (Nat × β)) (json_map : List (Nat × α))
    (obj : Nat) (to_json : β → α) : Option β × List (Nat × α) :=
  match store.lookup obj with
  | some ci => (some ci, add_json json_map obj (to_json ci))
  | none => (none, json_map)

/-- `StateRecorder::serialize_graphics_pipeline` (lines 2942-2995).  The
emitted document carries the pipeline, its layout, that layout's set
layouts, their immutable samplers and the render pass; the local
`shader_modules` JSON map of the source is never filled in and never
added to the document, so the emitted document has no `shaderModules`
section. -/
def serialize_graphics_pipeline (impl : RecorderState) (hash : Nat) : Document :=
  let gp := serialize_obj impl.graphics_pipelines [] hash json_value_graphics_pipeline
  let graphics_pipelines := gp.2
  match gp.1 with
  | none =>
    { version := FOSSILIZE_FORMAT_VERSION
      shaderModules := none
      samplers := some []
      setLayouts := some []
      pipelineLayouts := some []
      renderPasses := some []
      computePipelines := none
      graphicsPipelines := some graphics_pipelines }
  | some pipe =>
    let pl := serialize_obj impl.pipeline_layouts [] pipe.layout json_value_pipeline_layout
    let pipeline_layouts := pl.2
    let sls :=
      match pl.1 with
      | none => (([] : List (Nat × SetLayoutJson)), ([] : List (Nat × SamplerJson)))
      | some pipeline_layout =>
        pipeline_layout.pSetLayouts.foldl (fun acc sl =>
          let step := serialize_obj impl.descriptor_sets acc.1 sl
            json_value_descriptor_set_layout
          match step.1 with
          | none => (step.2, acc.2)
          | some set_layout =>
            let samplers := set_layout.pBindings.foldl
              (fun (sm : List (Nat × SamplerJson)) (binding : DescriptorSetLayoutBinding) =>
              match binding.pImmutableSamplers with
              | some samps =>
                if binding.descriptorType = VK_DESCRIPTOR_TYPE_COMBINED_IMAGE_SAMPLER ∨
                   binding.descriptorType = VK_DESCRIPTOR_TYPE_SAMPLER then
                  (samps.take binding.descriptorCount).foldl (fun sm k =>
                    (serialize_obj impl.samplers sm k json_value_sampler).2) sm
                else sm
              | none => sm) acc.2
            (step.2, samplers)) (([] : List (Nat × SetLayoutJson)), ([] : List (Nat × SamplerJson)))
    let rp := serialize_obj impl.render_passes [] pipe.renderPass json_value_render_pass
    { version := FOSSILIZE_FORMAT_VERSION
      shaderModules := none
      samplers := some sls.2
      setLayouts := some sls.1
      pipelineLayouts := some pipeline_layouts
      renderPasses := some rp.2
      computePipelines := none
      graphicsPipelines := some graphics_pipelines }

/-! ## The replayer (`StateReplayer::Impl`, fossilize.cpp
lines 139-190 and 862-1735)

The seven `replayed_*` maps hold hash-to-created-handle entries.
`enqueue_create_*` returns `some handle` for success and `none` for the
`false` return that makes the replayer throw.  `wait_enqueue` and
`set_num_*` return void and cannot fail, so they have no effect on the
embedded state.  `ResolverInterface::resolve` returns `none` for empty
bytes; a non-empty result is the parsed document it contains (the byte
codec is the out-of-scope text layer).  C++ recursion through
`this->parse` becomes recursion on an explicit depth budget. -/

structure ReplayMaps where
  replayed_samplers : List (Nat × Nat)
  replayed_descriptor_set_layouts : List (Nat × Nat)
  replayed_pipeline_layouts : List (Nat × Nat)
  replayed_shader_modules : List (Nat × Nat)
  replayed_render_passes : List (Nat × Nat)
  replayed_compute_pipelines : List (Nat × Nat)
  replayed_graphics_pipelines : List (Nat × Nat)
  deriving Repr, DecidableEq

structure StateCreatorInterface where
  enqueue_create_sampler : Nat → SamplerCreateInfo → Option Nat
  enqueue_create_descriptor_set_layout : Nat → DescriptorSetLayoutCreateInfo → Option Nat
  enqueue_create_pipeline_layout : Nat → PipelineLayoutCreateInfo → Option Nat
  enqueue_create_shader_module : Nat → ShaderModuleCreateInfo → Option Nat
  enqueue_create_render_pass : Nat → RenderPassCreateInfo → Option Nat
  enqueue_create_compute_pipeline : Nat → ComputePipelineCreateInfo → Option Nat
  enqueue_create_graphics_pipeline : Nat → GraphicsPipelineCreateInfo → Option Nat

def ResolverInterface : Type := Nat → Option Document

inductive ReplayErr
  /-- FOSSILIZE_THROW of a version mismatch. -/
  | versionMismatch
  /-- FOSSILIZE_THROW when an `enqueue_create_*` returns false. -/
  | createFailed
  /-- FOSSILIZE_THROW of the failed-to-find-referenced-shader
  messages. -/
  | shaderModuleNotFound
  /-- FOSSILIZE_THROW of the failed-to-find-referenced-compute-pipeline
  message. -/
  | computePipelineNotFound
  /-- FOSSILIZE_THROW of the failed-to-find-referenced-graphics-pipeline
  message. -/
  | graphicsPipelineNotFound
  /-- The explicit recursion budget of the embedding ran out. -/
  | recursionLimit
  deriving Repr, DecidableEq

/-- `std::unordered_map::operator[]`: return the mapped value, inserting
a value-initialized (zero) entry when the key is missing. -/
def map_bracket (m : List (Nat × Nat)) (k : Nat) : Nat × List (Nat × Nat) :=
  match m.lookup k with
  | some v => (v, m)
  | none => (0, (k, 0) :: m)

/-- `parse_immutable_samplers` (lines 870-882): a zero reference leaves
the (uninitialized) slot alone, modelled as handle 0. -/
def parse_immutable_samplers (m : List (Nat × Nat)) (samplers : List Nat) :
    List Nat × List (Nat × Nat) :=
  samplers.foldl (fun acc idx =>
    if idx > 0 then
      let v := map_bracket acc.2 idx
      (acc.1 ++ [v.1], v.2)
    else
      (acc.1 ++ [0], acc.2)) ([], m)

/-- `parse_descriptor_set_bindings` (lines 884-899); threads the
`replayed_samplers` map because immutable-sampler lookups may insert
default entries. -/
def parse_descriptor_set_bindings (m : List (Nat × Nat)) (bindings : List BindingJson) :
    List DescriptorSetLayoutBinding × List (Nat × Nat) :=
  bindings.foldl (fun acc b =>
    match b.immutableSamplers with
    | some refs =>
      let v := parse_immutable_samplers acc.2 refs
      (acc.1 ++ [{ binding := b.binding, descriptorCount := b.descriptorCount,
                   descriptorType := b.descriptorType, stageFlags := b.stageFlags,
                   pImmutableSamplers := some v.1 }], v.2)
    | none =>
      (acc.1 ++ [{ binding := b.binding, descriptorCount := b.descriptorCount,
                   descriptorType := b.descriptorType, stageFlags := b.stageFlags,
                   pImmutableSamplers := none }], acc.2)) ([], m)

/-- `parse_set_layouts` (lines 917-930). -/
def parse_set_layouts (m : List (Nat × Nat)) (layouts : List Nat) :
    List Nat × List (Nat × Nat) :=
  layouts.foldl (fun acc idx =>
    if idx > 0 then
      let v := map_bracket acc.2 idx
      (acc.1 ++ [v.1], v.2)
    else
      (acc.1 ++ [0], acc.2)) ([], m)

/-- `parse_samplers` (lines 1017-1052). -/
def parse_samplers (iface : StateCreatorInterface) (st : ReplayMaps)
    (samplers : List (Nat × SamplerJson)) : Except ReplayErr ReplayMaps :=
  samplers.foldlM (fun st entry =>
    let hash := entry.1
    let obj := entry.2
    if (st.replayed_samplers.lookup hash).isSome then pure st
    else
      let info : SamplerCreateInfo :=
        { hasPNext := false
          flags := obj.flags
          magFilter := obj.magFilter
          minFilter := obj.minFilter
          mipmapMode := obj.mipmapMode
          addressModeU := obj.addressModeU
          addressModeV := obj.addressModeV
          addressModeW := obj.addressModeW
          mipLodBias := obj.mipLodBias
          anisotropyEnable := obj.anisotropyEnable
          maxAnisotropy := obj.maxAnisotropy
          compareEnable := obj.compareEnable
          compareOp := obj.compareOp
          minLod := obj.minLod
          maxLod := obj.maxLod
          borderColor := obj.borderColor
          unnormalizedCoordinates := obj.unnormalizedCoordinates }
      match iface.enqueue_create_sampler hash info with
      | some handle =>
        pure { st with replayed_samplers := (hash, handle) :: st.replayed_samplers }
      | none => .error .createFailed) st

/-- `parse_descriptor_set_layouts` (lines 988-1015). -/
def parse_descriptor_set_layouts (iface : StateCreatorInterface) (st : ReplayMaps)
    (layouts : List (Nat × SetLayoutJson)) : Except ReplayErr ReplayMaps :=
  layouts.foldlM (fun st entry =>
    let hash := entry.1
    let obj := entry.2
    if (st.replayed_descriptor_set_layouts.lookup hash).isSome then pure st
    else
      let v := parse_descriptor_set_bindings st.replayed_samplers obj.bindings
      let st := { st with replayed_samplers := v.2 }
      let info : DescriptorSetLayoutCreateInfo :=
        { hasPNext := false, flags := obj.flags, pBindings := v.1 }
      match iface.enqueue_create_descriptor_set_layout hash info with
      | some handle =>
        pure { st with replayed_descriptor_set_layouts :=
          (hash, handle) :: st.replayed_descriptor_set_layouts }
      | none => .error .createFailed) st

/-- `parse_pipeline_layouts` (lines 954-986). -/
def parse_pipeline_layouts (iface : StateCreatorInterface) (st : ReplayMaps)
    (layouts : List (Nat × PipelineLayoutJson)) : Except ReplayErr ReplayMaps :=
  layouts.foldlM (fun st entry =>
    let hash := entry.1
    let obj := entry.2
    if (st.replayed_pipeline_layouts.lookup hash).isSome then pure st
    else
      let v := parse_set_layouts st.replayed_descriptor_set_layouts obj.setLayouts
      let st := { st with replayed_descriptor_set_layouts := v.2 }
      let info : PipelineLayoutCreateInfo :=
        { hasPNext := false, flags := obj.flags
          pSetLayouts := v.1, pPushConstantRanges := obj.pushConstantRanges }
      match iface.enqueue_create_pipeline_layout hash info with
      | some handle =>
        pure { st with replayed_pipeline_layouts :=
          (hash, handle) :: st.replayed_pipeline_layouts }
      | none => .error .createFailed) st

/-- `parse_shader_modules` (lines 932-952): the base64 code is decoded
into `codeSize` bytes and reinterpreted as 32-bit words. -/
def parse_shader_modules (iface : StateCreatorInterface) (st : ReplayMaps)
    (modules : List (Nat × ShaderModuleJson)) : Except ReplayErr ReplayMaps :=
  modules.foldlM (fun st entry =>
    let hash := entry.1
    let obj := entry.2
    if (st.replayed_shader_modules.lookup hash).isSome then pure st
    else
      let info : ShaderModuleCreateInfo :=
        { hasPNext := false, flags := obj.flags, codeSize := obj.codeSize
          pCode := bytes_to_words (decode_base64 obj.codeSize obj.code) }
      match iface.enqueue_create_shader_module hash info with
      | some handle =>
        pure { st with replayed_shader_modules :=
          (hash, handle) :: st.replayed_shader_modules }
      | none => .error .createFailed) st

/-- One subpass of `parse_render_pass_subpasses` (lines 1127-1164). -/
def parse_subpass (obj : SubpassJson) : SubpassDescription :=
  { flags := obj.flags
    pipelineBindPoint := obj.pipelineBindPoint
    pDepthStencilAttachment := obj.depthStencilAttachment
    pResolveAttachments := obj.resolveAttachments
    pInputAttachments := obj.inputAttachments
    pColorAttachments := obj.colorAttachments
    pPreserveAttachments := obj.preserveAttachments }

/-- `parse_render_passes` (lines 1166-1205).  Note the source's skip
check at line 1174: it consults `replayed_samplers`, not
`replayed_render_passes`. -/
def parse_render_passes (iface : StateCreatorInterface) (st : ReplayMaps)
    (passes : List (Nat × RenderPassJson)) : Except ReplayErr ReplayMaps :=
  passes.foldlM (fun st entry =>
    let hash := entry.1
    let obj := entry.2
    if (st.replayed_samplers.lookup hash).isSome then pure st
    else
      let info : RenderPassCreateInfo :=
        { hasPNext := false
          flags := obj.flags
          pAttachments := obj.attachments
          pDependencies := obj.dependencies
          pSubpasses := some (obj.subpasses.map parse_subpass) }
      match iface.enqueue_create_render_pass hash info with
      | some handle =>
        pure { st with replayed_render_passes :=
          (hash, handle) :: st.replayed_render_passes }
      | none => .error .createFailed) st

/-- `parse_specialization_info` (lines 1223-1234). -/
def parse_specialization_info (spec : SpecializationInfoJson) : SpecializationInfo :=
  { dataSize := spec.dataSize
    pData := decode_base64 spec.dataSize spec.data
    pMapEntries := spec.mapEntries }

/-- The shader-module reference resolution shared by `parse_stages`
(lines 1574-1589) and `parse_compute_pipelines` (lines 1278-1293): look
the module hash up; on a miss, ask the resolver, parse the returned
document and retry; an empty resolver result or a still-missing module
is fatal. -/
def resolve_shader_module_reference
    (parseFn : ReplayMaps → Document → Except ReplayErr ReplayMaps)
    (resolver : ResolverInterface) (st : ReplayMaps) (module : Nat) :
    Except ReplayErr (Nat × ReplayMaps) :=
  match st.replayed_shader_modules.lookup module with
  | some m => .ok (m, st)
  | none =>
    match resolver module with
    | none => .error .shaderModuleNotFound
    | some doc => do
      let st ← parseFn st doc
      match st.replayed_shader_modules.lookup module with
      | some m => pure (m, st)
      | none => .error .shaderModuleNotFound

/-- `parse_stages` (lines 1559-1593). -/
def parse_stages (parseFn : ReplayMaps → Document → Except ReplayErr ReplayMaps)
    (resolver : ResolverInterface) (st : ReplayMaps) (stages : List StageJson) :
    Except ReplayErr (List PipelineShaderStageCreateInfo × ReplayMaps) :=
  stages.foldlM (fun acc obj => do
    let base : PipelineShaderStageCreateInfo :=
      { hasPNext := false
        flags := obj.flags
        stage := obj.stage
        module := 0
        pName := obj.name
        pSpecializationInfo := obj.specializationInfo.map parse_specialization_info }
    if obj.module > 0 then do
      let v ← resolve_shader_module_reference parseFn resolver acc.2 obj.module
      pure (acc.1 ++ [{ base with module := v.1 }], v.2)
    else
      pure (acc.1 ++ [base], acc.2)) (([], st))

/-- `parse_compute_pipelines` (lines 1236-1303). -/
def parse_compute_pipelines (iface : StateCreatorInterface)
    (parseFn : ReplayMaps → Document → Except ReplayErr ReplayMaps)
    (resolver : ResolverInterface) (st : ReplayMaps)
    (pipelines : List (Nat × ComputePipelineJson)) : Except ReplayErr ReplayMaps :=
  pipelines.foldlM (fun st entry => do
    let hash := entry.1
    let obj := entry.2
    if (st.replayed_compute_pipelines.lookup hash).isSome then pure st
    else do
      let basev ←
        if obj.basePipelineHandle > 0 then
          match st.replayed_compute_pipelines.lookup obj.basePipelineHandle with
          | some p => pure ((p, st) : Nat × ReplayMaps)
          | none =>
            match resolver obj.basePipelineHandle with
            | none => .error .computePipelineNotFound
            | some doc => do
              let st ← parseFn st doc
              match st.replayed_compute_pipelines.lookup obj.basePipelineHandle with
              | some p => pure (p, st)
              | none => .error .computePipelineNotFound
        else
          pure ((0, st) : Nat × ReplayMaps)
      let st := basev.2
      let layoutv :=
        if obj.layout > 0 then map_bracket st.replayed_pipeline_layouts obj.layout
        else (0, st.replayed_pipeline_layouts)
      let st := { st with replayed_pipeline_layouts := layoutv.2 }
      let modulev ←
        if obj.stage.module > 0 then do
          let v ← resolve_shader_module_reference parseFn resolver st obj.stage.module
          pure v
        else
          pure ((0, st) : Nat × ReplayMaps)
      let st := modulev.2
      let info : ComputePipelineCreateInfo :=
        { hasPNext := false
          flags := obj.flags
          basePipelineIndex := obj.basePipelineIndex
          basePipelineHandle := basev.1
          layout := layoutv.1
          stage :=
            { hasPNext := false
              flags := obj.stage.flags
              stage := obj.stage.stage
              module := modulev.1
              pName := obj.stage.name
              pSpecializationInfo := obj.stage.specializationInfo.map parse_specialization_info } }
      match iface.enqueue_create_compute_pipeline hash info with
      | some handle =>
        pure { st with replayed_compute_pipelines :=
          (hash, handle) :: st.replayed_compute_pipelines }
      | none => .error .createFailed) st

/-- The sub-state parsers of `parse_graphics_pipelines`
(lines 1338-1557), combined into building the create info from the
JSON sub-objects. -/
def parse_vertex_input_state (vi : VertexInputStateJson) :
    PipelineVertexInputStateCreateInfo :=
  { hasPNext := false, flags := vi.flags
    pVertexAttributeDescriptions := vi.attributes
    pVertexBindingDescriptions := vi.bindings }

def parse_depth_stencil_state (ds : DepthStencilStateJson) :
    PipelineDepthStencilStateCreateInfo :=
  { hasPNext := false, flags := ds.flags
    depthBoundsTestEnable := ds.depthBoundsTestEnable
    depthCompareOp := ds.depthCompareOp
    depthTestEnable := ds.depthTestEnable
    depthWriteEnable := ds.depthWriteEnable
    minDepthBounds := ds.minDepthBounds
    maxDepthBounds := ds.maxDepthBounds
    stencilTestEnable := ds.stencilTestEnable
    front := ds.front
    back := ds.back }

def parse_rasterization_state (rs : RasterizationStateJson) :
    PipelineRasterizationStateCreateInfo :=
  { hasPNext := false, flags := rs.flags
    cullMode := rs.cullMode
    depthBiasClamp := rs.depthBiasClamp
    depthBiasConstantFactor := rs.depthBiasConstantFactor
    depthBiasSlopeFactor := rs.depthBiasSlopeFactor
    lineWidth := rs.lineWidth
    rasterizerDiscardEnable := rs.rasterizerDiscardEnable
    depthBiasEnable := rs.depthBiasEnable
    depthClampEnable := rs.depthClampEnable
    polygonMode := rs.polygonMode
    frontFace := rs.frontFace }

def parse_tessellation_state (tess : TessellationStateJson) :
    PipelineTessellationStateCreateInfo :=
  { hasPNext := false, flags := tess.flags
    patchControlPoints := tess.patchControlPoints }

def parse_input_assembly_state (ia : InputAssemblyStateJson) :
    PipelineInputAssemblyStateCreateInfo :=
  { hasPNext := false, flags := ia.flags
    primitiveRestartEnable := ia.primitiveRestartEnable
    topology := ia.topology }

def parse_color_blend_state (blend : ColorBlendStateJson) :
    PipelineColorBlendStateCreateInfo :=
  { hasPNext := false, flags := blend.flags
    logicOp := blend.logicOp
    logicOpEnable := blend.logicOpEnable
    blendConstants := blend.blendConstants
    pAttachments := blend.attachments }

def parse_multisample_state (ms : MultisampleStateJson) :
    PipelineMultisampleStateCreateInfo :=
  { hasPNext := false, flags := ms.flags
    alphaToCoverageEnable := ms.alphaToCoverageEnable
    alphaToOneEnable := ms.alphaToOneEnable
    minSampleShading := ms.minSampleShading
    pSampleMask := ms.sampleMask
    sampleShadingEnable := ms.sampleShadingEnable
    rasterizationSamples := ms.rasterizationSamples }

def parse_dynamic_state (dyn : DynamicStateJson) :
    PipelineDynamicStateCreateInfo :=
  { hasPNext := false, flags := dyn.flags
    pDynamicStates := dyn.dynamicState }

def parse_viewport_state (vp : ViewportStateJson) :
    PipelineViewportStateCreateInfo :=
  { hasPNext := false, flags := vp.flags
    scissorCount := vp.scissorCount
    pScissors := vp.scissors
    viewportCount := vp.viewportCount
    pViewports := vp.viewports }

/-- `parse_graphics_pipelines` (lines 1595-1669). -/
def parse_graphics_pipelines (iface : StateCreatorInterface)
    (parseFn : ReplayMaps → Document → Except ReplayErr ReplayMaps)
    (resolver : ResolverInterface) (st : ReplayMaps)
    (pipelines : List (Nat × GraphicsPipelineJson)) : Except ReplayErr ReplayMaps :=
  pipelines.foldlM (fun st entry => do
    let hash := entry.1
    let obj := entry.2
    if (st.replayed_graphics_pipelines.lookup hash).isSome then pure st
    else do
      let basev ←
        if obj.basePipelineHandle > 0 then
          match st.replayed_graphics_pipelines.lookup obj.basePipelineHandle with
          | some p => pure ((p, st) : Nat × ReplayMaps)
          | none =>
            match resolver obj.basePipelineHandle with
            | none => .error .graphicsPipelineNotFound
            | some doc => do
              let st ← parseFn st doc
              match st.replayed_graphics_pipelines.lookup obj.basePipelineHandle with
              | some p => pure (p, st)
              | none => .error .graphicsPipelineNotFound
        else
          pure ((0, st) : Nat × ReplayMaps)
      let st := basev.2
      let layoutv :=
        if obj.layout > 0 then map_bracket st.replayed_pipeline_layouts obj.layout
        else (0, st.replayed_pipeline_layouts)
      let st := { st with replayed_pipeline_layouts := layoutv.2 }
      let renderPassv :=
        if obj.renderPass > 0 then map_bracket st.replayed_render_passes obj.renderPass
        else (0, st.replayed_render_passes)
      let st := { st with replayed_render_passes := renderPassv.2 }
      let stagesv ← parse_stages parseFn resolver st obj.stages
      let st := stagesv.2
      let info : GraphicsPipelineCreateInfo :=
        { hasPNext := false
          flags := obj.flags
          basePipelineIndex := obj.basePipelineIndex
          basePipelineHandle := basev.1
          layout := layoutv.1
          renderPass := renderPassv.1
          subpass := obj.subpass
          pStages := stagesv.1
          pRasterizationState := obj.rasterizationState.map parse_rasterization_state
          pTessellationState := obj.tessellationState.map parse_tessellation_state
          pColorBlendState := obj.colorBlendState.map parse_color_blend_state
          pDepthStencilState := obj.depthStencilState.map parse_depth_stencil_state
          pDynamicState := obj.dynamicState.map parse_dynamic_state
          pViewportState := obj.viewportState.map parse_viewport_state
          pMultisampleState := obj.multisampleState.map parse_multisample_state
          pInputAssemblyState := obj.inputAssemblyState.map parse_input_assembly_state
          pVertexInputState := obj.vertexInputState.map parse_vertex_input_state }
      match iface.enqueue_create_graphics_pipeline hash info with
      | some handle =>
        pure { st with replayed_graphics_pipelines :=
          (hash, handle) :: st.replayed_graphics_pipelines }
      | none => .error .createFailed) st

/-- `StateReplayer::Impl::parse` (lines 1690-1735): version check, then
the seven sections in dependency order.  `fuel` bounds the recursion
through resolver-provided documents. -/
def state_replayer_parse : Nat → StateCreatorInterface → ResolverInterface →
    ReplayMaps → Document → Except ReplayErr ReplayMaps
  | 0, _, _, _, _ => .error .recursionLimit
  | fuel + 1, iface, resolver, st, doc => do
    if doc.version ≠ FOSSILIZE_FORMAT_VERSION then
      .error .versionMismatch
    else do
      let st ←
        match doc.shaderModules with
        | some ms => parse_shader_modules iface st ms
        | none => pure st
      let st ←
        match doc.samplers with
        | some s => parse_samplers iface st s
        | none => pure st
      let st ←
        match doc.setLayouts with
        | some l => parse_descriptor_set_layouts iface st l
        | none => pure st
      let st ←
        match doc.pipelineLayouts with
        | some l => parse_pipeline_layouts iface st l
        | none => pure st
      let st ←
        match doc.renderPasses with
        | some p => parse_render_passes iface st p
        | none => pure st
      let st ←
        match doc.computePipelines with
        | some p =>
          parse_compute_pipelines iface
            (state_replayer_parse fuel iface resolver) resolver st p
        | none => pure st
      match doc.graphicsPipelines with
      | some p =>
        parse_graphics_pipelines iface
          (state_replayer_parse fuel iface resolver) resolver st p
      | none => pure st

/-- A `StateCreatorInterface` that accepts every create call (the
created handle is the hash, an arbitrary choice — handles are
opaque). -/
def accept_all_iface : StateCreatorInterface :=
  { enqueue_create_sampler := fun h _ => some h
    enqueue_create_descriptor_set_layout := fun h _ => some h
    enqueue_create_pipeline_layout := fun h _ => some h
    enqueue_create_shader_module := fun h _ => some h
    enqueue_create_render_pass := fun h _ => some h
    enqueue_create_compute_pipeline := fun h _ => some h
    enqueue_create_graphics_pipeline := fun h _ => some h }

/-- A `ResolverInterface` whose `resolve` always returns empty bytes. -/
def empty_resolver : ResolverInterface := fun _ => none

def initial_replay_maps : ReplayMaps :=
  { replayed_samplers := []
    replayed_descriptor_set_layouts := []
    replayed_pipeline_layouts := []
    replayed_shader_modules := []
    replayed_render_passes := []
    replayed_compute_pipelines := []
    replayed_graphics_pipelines := [] }

/-! ## Support definitions for the theorems -/

/-- Concatenation of per-element word lists (used to characterize the
hasher loops). -/
def words_concat {α : Type} (f : α → List Nat) : List α → List Nat
  | [] => []
  | a :: rest => f a ++ words_concat f rest

def scissor_words (s : Rect2D) : List Nat :=
  [s.offsetX, s.offsetY, s.extentWidth, s.extentHeight]

def viewport_words (v : Viewport) : List Nat :=
  [v.x, v.y, v.width, v.height, v.minDepth, v.maxDepth]

def vertex_attribute_words (a : VertexInputAttributeDescription) : List Nat :=
  [a.offset, a.binding, a.format, a.location]

def vertex_binding_words (b : VertexInputBindingDescription) : List Nat :=
  [b.binding, b.inputRate, b.stride]

def attachment_reference_words (a : AttachmentReference) : List Nat :=
  [a.attachment, a.layout]

/-- The words one color-blend attachment contributes to the feed: the
`blendEnable` word, then either the seven blend fields (enabled) or a
single `u32(0)` (disabled). -/
def blend_attachment_words (a : PipelineColorBlendAttachmentState) : List Nat :=
  if a.blendEnable != 0 then
    [a.blendEnable, a.colorWriteMask, a.alphaBlendOp, a.colorBlendOp,
     a.dstAlphaBlendFactor, a.srcAlphaBlendFactor, a.dstColorBlendFactor,
     a.srcColorBlendFactor]
  else
    [a.blendEnable, 0]

/-- The `need_blend_constants` flag after the attachment loop. -/
def needs_blend_constants (atts : List PipelineColorBlendAttachmentState) : Bool :=
  atts.any (fun a => a.blendEnable != 0 && attachment_needs_blend_constants a)

/-- Modelled from the spec (claim C8): the per-reference feed words,
`{index, layout}` pairs in order. -/
def refs_feed : List AttachmentReference → List Nat
  | [] => []
  | a :: rest => a.attachment :: a.layout :: refs_feed rest

/-- Modelled from the spec (claim C8): the claimed subpass feed
sequence — header counts and bind point, preserve indices, color
references, input references, resolve references only if present, then
the depth-stencil reference or a single `u32(0)`. -/
def subpass_feed_spec (sub : SubpassDescription) : List Nat :=
  [sub.flags, sub.colorAttachmentCount, sub.inputAttachmentCount,
   sub.preserveAttachmentCount, sub.pipelineBindPoint]
  ++ (sub.pPreserveAttachments.getD [])
  ++ refs_feed (sub.pColorAttachments.getD [])
  ++ refs_feed (sub.pInputAttachments.getD [])
  ++ (match sub.pResolveAttachments with
      | some r => refs_feed r
      | none => [])
  ++ (match sub.pDepthStencilAttachment with
      | some d => [d.attachment, d.layout]
      | none => [0])

/-- The kind-indexed store of one worker item, with entries wrapped in
`WorkInfo` so all seven kinds share one statement. -/
def store_entries (s : RecorderState) : WorkInfo → List (Nat × WorkInfo)
  | .sampler _ => s.samplers.map (fun p => (p.1, WorkInfo.sampler p.2))
  | .descriptorSetLayout _ =>
    s.descriptor_sets.map (fun p => (p.1, WorkInfo.descriptorSetLayout p.2))
  | .pipelineLayout _ =>
    s.pipeline_layouts.map (fun p => (p.1, WorkInfo.pipelineLayout p.2))
  | .shaderModule _ =>
    s.shader_modules.map (fun p => (p.1, WorkInfo.shaderModule p.2))
  | .renderPass _ => s.render_passes.map (fun p => (p.1, WorkInfo.renderPass p.2))
  | .graphicsPipeline _ =>
    s.graphics_pipelines.map (fun p => (p.1, WorkInfo.graphicsPipeline p.2))
  | .computePipeline _ =>
    s.compute_pipelines.map (fun p => (p.1, WorkInfo.computePipeline p.2))

/-- The kind-indexed handle-to-hash table of one worker item. -/
def handle_map (s : RecorderState) : WorkInfo → List (Nat × Nat)
  | .sampler _ => s.tables.sampler_to_index
  | .descriptorSetLayout _ => s.tables.descriptor_set_layout_to_index
  | .pipelineLayout _ => s.tables.pipeline_layout_to_index
  | .shaderModule _ => s.tables.shader_module_to_index
  | .renderPass _ => s.tables.render_pass_to_index
  | .graphicsPipeline _ => s.tables.graphics_pipeline_to_index
  | .computePipeline _ => s.tables.compute_pipeline_to_index

/-- The handle remapping the worker applies before storing an item of
each kind (identity for the kinds with nothing to remap). -/
def remap_work_info (t : HandleToHashMaps) : WorkInfo → Except RecordErr WorkInfo
  | .sampler ci => .ok (.sampler ci)
  | .descriptorSetLayout ci =>
    match remap_descriptor_set_layout_ci t ci with
    | .ok ci' => .ok (.descriptorSetLayout ci')
    | .error e => .error e
  | .pipelineLayout ci =>
    match remap_pipeline_layout_ci t ci with
    | .ok ci' => .ok (.pipelineLayout ci')
    | .error e => .error e
  | .shaderModule ci => .ok (.shaderModule (remap_shader_module_ci ci))
  | .renderPass ci => .ok (.renderPass ci)
  | .graphicsPipeline ci =>
    match remap_graphics_pipeline_ci t ci with
    | .ok ci' => .ok (.graphicsPipeline ci')
    | .error e => .error e
  | .computePipeline ci =>
    match remap_compute_pipeline_ci t ci with
    | .ok ci' => .ok (.computePipeline ci')
    | .error e => .error e

/-! ## Concrete inputs used by counterexamples and witnesses -/

def empty_tables : HandleToHashMaps :=
  { sampler_to_index := []
    descriptor_set_layout_to_index := []
    pipeline_layout_to_index := []
    shader_module_to_index := []
    render_pass_to_index := []
    graphics_pipeline_to_index := []
    compute_pipeline_to_index := [] }

def empty_recorder_state : RecorderState :=
  { tables := empty_tables
    descriptor_sets := []
    pipeline_layouts := []
    shader_modules := []
    graphics_pipelines := []
    compute_pipelines := []
    render_passes := []
    samplers := [] }

def cex_sampler : SamplerCreateInfo :=
  { hasPNext := false, flags := 0, magFilter := 1, minFilter := 0
    mipmapMode := 0, addressModeU := 0, addressModeV := 0, addressModeW := 0
    mipLodBias := 0, anisotropyEnable := 0, maxAnisotropy := 0
    compareEnable := 1, compareOp := 1, minLod := 0, maxLod := 0
    borderColor := 0, unnormalizedCoordinates := 0 }

def cex_stage : PipelineShaderStageCreateInfo :=
  { hasPNext := false, flags := 0, stage := 16, module := 5
    pName := [109, 97, 105, 110], pSpecializationInfo := none }

def cex_pipe : GraphicsPipelineCreateInfo :=
  { hasPNext := false, flags := 0, pStages := [cex_stage]
    pVertexInputState := none, pInputAssemblyState := none
    pTessellationState := none, pViewportState := none
    pRasterizationState := none, pMultisampleState := none
    pDepthStencilState := none, pColorBlendState := none, pDynamicState := none
    layout := 7, renderPass := 9, subpass := 0
    basePipelineHandle := 0, basePipelineIndex := 0 }

def cex_pipeline_layout : PipelineLayoutCreateInfo :=
  { hasPNext := false, flags := 0, pSetLayouts := [], pPushConstantRanges := [] }

def cex_render_pass : RenderPassCreateInfo :=
  { hasPNext := false, flags := 0, pAttachments := none, pSubpasses := none
    pDependencies := none }

/-- A recorder whose store holds one graphics pipeline (hash 100) whose
single stage references shader module hash 5, plus its layout (hash 7)
and render pass (hash 9). -/
def cex_store : RecorderState :=
  { empty_recorder_state with
    pipeline_layouts := [(7, cex_pipeline_layout)]
    graphics_pipelines := [(100, cex_pipe)]
    render_passes := [(9, cex_render_pass)] }

/-- A graphics pipeline descriptor with a present vertex-input state
(null `pNext`) and an absent color-blend state. -/
def cex_vi_pipe : GraphicsPipelineCreateInfo :=
  { cex_pipe with
    pStages := []
    pVertexInputState := some
      { hasPNext := false, flags := 0
        pVertexBindingDescriptions := [], pVertexAttributeDescriptions := [] } }

/-- A descriptor-set layout create info carrying a non-null `pNext`
chain. -/
def cex_dsl_pnext : DescriptorSetLayoutCreateInfo :=
  { hasPNext := true, flags := 0, pBindings := [] }

/-- A descriptor-set layout whose binding references the unregistered
immutable sampler handle 5. -/
def cex_bad_layout : DescriptorSetLayoutCreateInfo :=
  { hasPNext := false, flags := 0
    pBindings := [{ binding := 0, descriptorType := VK_DESCRIPTOR_TYPE_SAMPLER
                    descriptorCount := 1, stageFlags := 1
                    pImmutableSamplers := some [5] }] }

/-- Handle-to-hash tables registering pipeline-layout handle 7 and
render-pass handle 9. -/
def cex_hash_tables : HandleToHashMaps :=
  { empty_tables with
    pipeline_layout_to_index := [(7, 70)]
    render_pass_to_index := [(9, 90)] }

def cex_depth_stencil : PipelineDepthStencilStateCreateInfo :=
  { hasPNext := false, flags := 0, depthTestEnable := 1, depthWriteEnable := 1
    depthCompareOp := 2, depthBoundsTestEnable := 1, stencilTestEnable := 0
    front := ⟨0, 0, 0, 0, 0, 0, 0⟩, back := ⟨0, 0, 0, 0, 0, 0, 0⟩
    minDepthBounds := 0, maxDepthBounds := 0 }

/-- A graphics pipeline with `VK_DYNAMIC_STATE_DEPTH_BOUNDS` in its
dynamic-state array. -/
def cex_dyn_pipe : GraphicsPipelineCreateInfo :=
  { cex_pipe with
    pStages := []
    pDynamicState := some
      { hasPNext := false, flags := 0
        pDynamicStates := [VK_DYNAMIC_STATE_DEPTH_BOUNDS] } }

def cex_blend_state : PipelineColorBlendStateCreateInfo :=
  { hasPNext := false, flags := 0, logicOpEnable := 0, logicOp := 0
    pAttachments := [], blendConstants := [0, 0, 0, 0] }

def cex_disabled_attachment : PipelineColorBlendAttachmentState :=
  { blendEnable := 0, srcColorBlendFactor := 1, dstColorBlendFactor := 2
    colorBlendOp := 3, srcAlphaBlendFactor := 4, dstAlphaBlendFactor := 5
    alphaBlendOp := 0, colorWriteMask := 15 }

def cex_disabled_attachment_alt : PipelineColorBlendAttachmentState :=
  { blendEnable := 0, srcColorBlendFactor := 6, dstColorBlendFactor := 7
    colorBlendOp := 1, srcAlphaBlendFactor := 2, dstAlphaBlendFactor := 10
    alphaBlendOp := 4, colorWriteMask := 3 }

/-- A subpass with one color attachment, a matching one-entry resolve
array, one input attachment, one preserve index and a depth-stencil
reference. -/
def cex_subpass : SubpassDescription :=
  { flags := 0, pipelineBindPoint := 0
    pInputAttachments := some [⟨3, 4⟩]
    pColorAttachments := some [⟨1, 2⟩]
    pResolveAttachments := some [⟨5, 6⟩]
    pDepthStencilAttachment := some ⟨7, 8⟩
    pPreserveAttachments := some [11] }

/-- A graphics pipeline whose single stage carries the null shader
module handle, so its serialized document references no shader
module. -/
def cex_pipe_zero : GraphicsPipelineCreateInfo :=
  { cex_pipe with pStages := [{ cex_stage with module := 0 }] }

/-- A recorder store holding `cex_pipe_zero` under hash 100 together
with its layout and render pass. -/
def cex_store_zero : RecorderState :=
  { cex_store with graphics_pipelines := [(100, cex_pipe_zero)] }

/-! ## General lemmas about the embedding -/

theorem except_ok_bind {ε α β : Type} (a : α) (f : α → Except ε β) :
    (Except.ok a >>= f : Except ε β) = f a := rfl

theorem except_pure_ok {ε α : Type} (a : α) : (pure a : Except ε α) = Except.ok a := rfl

theorem foldlM_except_ok_mem {ε α β : Type} (f : β → α → Except ε β) :
    ∀ (l : List α), (∀ b a, a ∈ l → ∃ b', f b a = .ok b') →
      ∀ b, ∃ b', l.foldlM f b = .ok b'
  | [], _, b => ⟨b, rfl⟩
  | a :: l, hf, b => by
    obtain ⟨b1, hb1⟩ := hf b a (List.mem_cons_self a l)
    obtain ⟨b2, hb2⟩ :=
      foldlM_except_ok_mem f l (fun b a ha => hf b a (List.mem_cons_of_mem _ ha)) b1
    exact ⟨b2, by simp [List.foldlM_cons, hb1, except_ok_bind, hb2]⟩

theorem words_concat_append {α : Type} (f : α → List Nat) :
    ∀ (l1 l2 : List α), words_concat f (l1 ++ l2) = words_concat f l1 ++ words_concat f l2
  | [], _ => by simp [words_concat]
  | a :: l1, l2 => by
    simp [words_concat, words_concat_append f l1 l2, List.append_assoc]

theorem words_concat_singleton : ∀ (l : List Nat), words_concat (fun a => [a]) l = l
  | [] => rfl
  | a :: l => by simp [words_concat, words_concat_singleton l]

/-- A hasher loop whose body appends fixed words per element turns the
whole loop into one append. -/
theorem foldl_hasher_words {α : Type} (f : Hasher → α → Hasher) (w : α → List Nat)
    (hf : ∀ x a, f x a = x ++ w a) :
    ∀ (l : List α) (h : Hasher), l.foldl f h = h ++ words_concat w l
  | [], h => by simp [words_concat]
  | a :: l, h => by
    rw [List.foldl_cons, foldl_hasher_words f w hf l (f h a), hf, words_concat,
      List.append_assoc]

theorem hu32_words (x : Hasher) (a : Nat) : hu32 x a = x ++ [a] := rfl

theorem hash_attachment_reference_words_eq (x : Hasher) (a : AttachmentReference) :
    hash_attachment_reference x a = x ++ attachment_reference_words a := by
  simp [hash_attachment_reference, hu32, attachment_reference_words]

theorem hash_scissor_rect_words_eq (x : Hasher) (s : Rect2D) :
    hash_scissor_rect x s = x ++ scissor_words s := by
  simp [hash_scissor_rect, hu32, hs32, scissor_words]

theorem hash_viewport_body_words_eq (x : Hasher) (v : Viewport) :
    hash_viewport_body x v = x ++ viewport_words v := by
  simp [hash_viewport_body, hu32, hf32, viewport_words]

theorem hash_vertex_attribute_words_eq (x : Hasher) (a : VertexInputAttributeDescription) :
    hash_vertex_attribute x a = x ++ vertex_attribute_words a := by
  simp [hash_vertex_attribute, hu32, vertex_attribute_words]

theorem hash_vertex_binding_words_eq (x : Hasher) (b : VertexInputBindingDescription) :
    hash_vertex_binding x b = x ++ vertex_binding_words b := by
  simp [hash_vertex_binding, hu32, vertex_binding_words]

theorem foldl_blend_attachments :
    ∀ (l : List PipelineColorBlendAttachmentState) (h : Hasher) (b : Bool),
      l.foldl hash_blend_attachment (h, b) =
        (h ++ words_concat blend_attachment_words l, b || needs_blend_constants l)
  | [], h, b => by simp [words_concat, needs_blend_constants]
  | a :: l, h, b => by
    by_cases he : (a.blendEnable != 0) = true
    · rw [List.foldl_cons]
      show l.foldl hash_blend_attachment (hash_blend_attachment (h, b) a) = _
      rw [show hash_blend_attachment (h, b) a =
            (h ++ blend_attachment_words a, b || attachment_needs_blend_constants a) from by
          simp [hash_blend_attachment, he, hu32, blend_attachment_words, List.append_assoc]]
      rw [foldl_blend_attachments l]
      simp [needs_blend_constants, he, words_concat, List.append_assoc, Bool.or_assoc]
    · rw [List.foldl_cons]
      show l.foldl hash_blend_attachment (hash_blend_attachment (h, b) a) = _
      rw [show hash_blend_attachment (h, b) a = (h ++ blend_attachment_words a, b) from by
          simp [hash_blend_attachment, he, hu32, blend_attachment_words, List.append_assoc]]
      rw [foldl_blend_attachments l]
      simp [needs_blend_constants, he, words_concat, List.append_assoc]

/-! ## Trace characterizations of the graphics-pipeline sub-state blocks -/

theorem hash_dynamic_part_none (h : Hasher) : hash_dynamic_part h none = h ++ [0] := rfl

theorem hash_depth_stencil_part_none (b1 b2 b3 b4 : Bool) (h : Hasher) :
    hash_depth_stencil_part b1 b2 b3 b4 h none = h ++ [0] := rfl

theorem hash_input_assembly_part_none (h : Hasher) :
    hash_input_assembly_part h none = h ++ [0] := rfl

theorem hash_rasterization_part_none (b1 b2 : Bool) (h : Hasher) :
    hash_rasterization_part b1 b2 h none = h ++ [0] := rfl

/-- The multisample block of the hash feeds nothing at all for an absent
state (no `else` branch in the source). -/
theorem hash_multisample_part_none (h : Hasher) : hash_multisample_part h none = h := rfl

theorem hash_viewport_part_none (b1 b2 : Bool) (h : Hasher) :
    hash_viewport_part b1 b2 h none = h ++ [0] := rfl

theorem hash_vertex_input_part_none (h : Hasher) :
    hash_vertex_input_part h none = h ++ [0] := rfl

theorem hash_color_blend_part_none (b : Bool) (h : Hasher) :
    hash_color_blend_part b h none = h ++ [0] := rfl

theorem hash_tessellation_part_none (h : Hasher) :
    hash_tessellation_part h none = h ++ [0] := rfl

theorem hash_dynamic_part_some (h : Hasher) (x : PipelineDynamicStateCreateInfo) :
    hash_dynamic_part h (some x) =
      h ++ x.dynamicStateCount :: x.flags :: x.pDynamicStates := by
  rw [show hash_dynamic_part h (some x) =
        x.pDynamicStates.foldl hu32 (hu32 (hu32 h x.dynamicStateCount) x.flags) from rfl]
  rw [foldl_hasher_words hu32 (fun a => [a]) (fun _ _ => rfl)]
  simp [hu32, words_concat_singleton, List.append_assoc]

theorem hash_depth_stencil_part_some (b1 b2 b3 b4 : Bool) (h : Hasher)
    (x : PipelineDepthStencilStateCreateInfo) :
    hash_depth_stencil_part b1 b2 b3 b4 h (some x) =
      h ++ [x.flags, x.depthBoundsTestEnable, x.depthCompareOp, x.depthTestEnable,
            x.depthWriteEnable, x.front.compareOp, x.front.depthFailOp,
            x.front.failOp, x.front.passOp, x.back.compareOp, x.back.depthFailOp,
            x.back.failOp, x.back.passOp, x.stencilTestEnable]
        ++ (if !b1 && x.depthBoundsTestEnable != 0 then
              [x.minDepthBounds, x.maxDepthBounds] else [])
        ++ (if x.stencilTestEnable != 0 then
              (if !b2 then [x.front.compareMask, x.back.compareMask] else [])
              ++ (if !b3 then [x.front.reference, x.back.reference] else [])
              ++ (if !b4 then [x.front.writeMask, x.back.writeMask] else [])
            else []) := by
  simp only [hash_depth_stencil_part, hu32, hf32]
  repeat' split
  all_goals simp_all [List.append_assoc]

theorem hash_input_assembly_part_some (h : Hasher)
    (x : PipelineInputAssemblyStateCreateInfo) :
    hash_input_assembly_part h (some x) =
      h ++ [x.flags, x.primitiveRestartEnable, x.topology] := by
  simp [hash_input_assembly_part, hu32, List.append_assoc]

theorem hash_rasterization_part_some (b1 b2 : Bool) (h : Hasher)
    (x : PipelineRasterizationStateCreateInfo) :
    hash_rasterization_part b1 b2 h (some x) =
      h ++ [x.flags, x.cullMode, x.depthClampEnable, x.frontFace,
            x.rasterizerDiscardEnable, x.polygonMode, x.depthBiasEnable]
        ++ (if x.depthBiasEnable != 0 && !b1 then
              [x.depthBiasClamp, x.depthBiasSlopeFactor, x.depthBiasConstantFactor]
            else [])
        ++ (if !b2 then [x.lineWidth] else []) := by
  simp only [hash_rasterization_part, hu32, hf32]
  repeat' split
  all_goals simp_all [List.append_assoc]

theorem hash_multisample_part_some (h : Hasher)
    (x : PipelineMultisampleStateCreateInfo) :
    hash_multisample_part h (some x) =
      h ++ [x.flags, x.alphaToCoverageEnable, x.alphaToOneEnable,
            x.minSampleShading, x.rasterizationSamples, x.sampleShadingEnable]
        ++ (match x.pSampleMask with
            | some mask => mask.take ((x.rasterizationSamples + 31) / 32)
            | none => [0]) := by
  simp only [hash_multisample_part, hu32, hf32]
  cases x.pSampleMask with
  | none => simp [List.append_assoc]
  | some mask =>
    simp [foldl_hasher_words hu32 (fun a => [a]) (fun _ _ => rfl),
      words_concat_singleton, List.append_assoc]

theorem hash_viewport_part_some (b1 b2 : Bool) (h : Hasher)
    (x : PipelineViewportStateCreateInfo) :
    hash_viewport_part b1 b2 h (some x) =
      h ++ [x.flags, x.scissorCount, x.viewportCount]
        ++ (if !b1 then
              words_concat scissor_words ((x.pScissors.getD []).take x.scissorCount)
            else [])
        ++ (if !b2 then
              words_concat viewport_words ((x.pViewports.getD []).take x.viewportCount)
            else []) := by
  simp only [hash_viewport_part, hu32,
    foldl_hasher_words hash_scissor_rect scissor_words hash_scissor_rect_words_eq,
    foldl_hasher_words hash_viewport_body viewport_words hash_viewport_body_words_eq]
  repeat' split
  all_goals simp_all [List.append_assoc]

theorem hash_vertex_input_part_some (h : Hasher)
    (x : PipelineVertexInputStateCreateInfo) :
    hash_vertex_input_part h (some x) =
      h ++ [x.flags, x.vertexAttributeDescriptionCount,
            x.vertexBindingDescriptionCount]
        ++ words_concat vertex_attribute_words x.pVertexAttributeDescriptions
        ++ words_concat vertex_binding_words x.pVertexBindingDescriptions := by
  simp only [hash_vertex_input_part, hu32,
    foldl_hasher_words hash_vertex_attribute vertex_attribute_words
      hash_vertex_attribute_words_eq,
    foldl_hasher_words hash_vertex_binding vertex_binding_words
      hash_vertex_binding_words_eq]
  simp [List.append_assoc]

theorem hash_color_blend_part_some (d : Bool) (h : Hasher)
    (x : PipelineColorBlendStateCreateInfo) :
    hash_color_blend_part d h (some x) =
      h ++ [x.flags, x.attachmentCount, x.logicOpEnable, x.logicOp]
        ++ words_concat blend_attachment_words x.pAttachments
        ++ (if needs_blend_constants x.pAttachments && !d then
              x.blendConstants else []) := by
  simp only [hash_color_blend_part, hu32, foldl_blend_attachments]
  repeat' split
  all_goals simp_all [List.append_assoc,
    foldl_hasher_words hf32 (fun a => [a]) (fun _ _ => rfl), words_concat_singleton,
    hf32, hu32]

theorem hash_tessellation_part_some (h : Hasher)
    (x : PipelineTessellationStateCreateInfo) :
    hash_tessellation_part h (some x) = h ++ [x.flags, x.patchControlPoints] := by
  simp [hash_tessellation_part, hu32, List.append_assoc]

theorem refs_feed_eq_words_concat :
    ∀ l : List AttachmentReference,
      refs_feed l = words_concat attachment_reference_words l
  | [] => rfl
  | a :: l => by
    simp [refs_feed, words_concat, attachment_reference_words,
      refs_feed_eq_words_concat l]

/-! ## Claim C3 -/

/-- C3: the claim is false on the code at a concrete input.  It states
that a null sub-state always feeds exactly one `u32(0)` and that a
present sub-state always feeds its `flags` first.  But a null
multisample state feeds nothing at all (not `[0]`), and a present
dynamic state feeds `dynamicStateCount` before `flags`: with
`dynamicStateCount = 1` and `flags = 5`, the first fed word is 1, not
the flags value 5. -/
theorem C3_counterexample :
    hash_multisample_part [] none = [] ∧
    hash_multisample_part [] none ≠ [0] ∧
    (hash_dynamic_part []
        (some { hasPNext := false, flags := 5, pDynamicStates := [9] })).head? = some 1 ∧
    (hash_dynamic_part []
        (some { hasPNext := false, flags := 5, pDynamicStates := [9] })).head? ≠ some 5 := by
  exact ⟨rfl, by decide, rfl, by decide⟩

/-- C3 (amended): in `compute_hash_graphics_pipeline`, every absent
sub-state feeds exactly one `u32(0)` except the multisample state,
which feeds nothing; every present sub-state begins by feeding its
`flags` except the dynamic state, which feeds `dynamicStateCount`
before `flags`.  Present and absent sub-states always contribute
different feed sequences. -/
theorem C3_amended_substate_feeds (h : Hasher) :
    (hash_dynamic_part h none = h ++ [0]) ∧
    (∀ b1 b2 b3 b4, hash_depth_stencil_part b1 b2 b3 b4 h none = h ++ [0]) ∧
    (hash_input_assembly_part h none = h ++ [0]) ∧
    (∀ b1 b2, hash_rasterization_part b1 b2 h none = h ++ [0]) ∧
    (hash_multisample_part h none = h) ∧
    (∀ b1 b2, hash_viewport_part b1 b2 h none = h ++ [0]) ∧
    (hash_vertex_input_part h none = h ++ [0]) ∧
    (∀ b, hash_color_blend_part b h none = h ++ [0]) ∧
    (hash_tessellation_part h none = h ++ [0]) ∧
    (∀ x, hash_dynamic_part h (some x) =
      h ++ x.dynamicStateCount :: x.flags :: x.pDynamicStates) ∧
    (∀ b1 b2 b3 b4 x, ∃ rest, hash_depth_stencil_part b1 b2 b3 b4 h (some x) =
      h ++ x.flags :: x.depthBoundsTestEnable :: rest) ∧
    (∀ x, hash_input_assembly_part h (some x) =
      h ++ [x.flags, x.primitiveRestartEnable, x.topology]) ∧
    (∀ b1 b2 x, ∃ rest, hash_rasterization_part b1 b2 h (some x) =
      h ++ x.flags :: x.cullMode :: rest) ∧
    (∀ x, ∃ rest, hash_multisample_part h (some x) =
      h ++ x.flags :: x.alphaToCoverageEnable :: rest) ∧
    (∀ b1 b2 x, ∃ rest, hash_viewport_part b1 b2 h (some x) =
      h ++ x.flags :: x.scissorCount :: rest) ∧
    (∀ x, ∃ rest, hash_vertex_input_part h (some x) =
      h ++ x.flags :: x.vertexAttributeDescriptionCount :: rest) ∧
    (∀ b x, ∃ rest, hash_color_blend_part b h (some x) =
      h ++ x.flags :: x.attachmentCount :: rest) ∧
    (∀ x, hash_tessellation_part h (some x) = h ++ [x.flags, x.patchControlPoints]) ∧
    (∀ x, hash_dynamic_part h (some x) ≠ hash_dynamic_part h none) ∧
    (∀ b1 b2 b3 b4 x, hash_depth_stencil_part b1 b2 b3 b4 h (some x) ≠
      hash_depth_stencil_part b1 b2 b3 b4 h none) ∧
    (∀ x, hash_input_assembly_part h (some x) ≠ hash_input_assembly_part h none) ∧
    (∀ b1 b2 x, hash_rasterization_part b1 b2 h (some x) ≠
      hash_rasterization_part b1 b2 h none) ∧
    (∀ x, hash_multisample_part h (some x) ≠ hash_multisample_part h none) ∧
    (∀ b1 b2 x, hash_viewport_part b1 b2 h (some x) ≠ hash_viewport_part b1 b2 h none) ∧
    (∀ x, hash_vertex_input_part h (some x) ≠ hash_vertex_input_part h none) ∧
    (∀ b x, hash_color_blend_part b h (some x) ≠ hash_color_blend_part b h none) ∧
    (∀ x, hash_tessellation_part h (some x) ≠ hash_tessellation_part h none) := by
  refine ⟨rfl, fun _ _ _ _ => rfl, rfl, fun _ _ => rfl, rfl, fun _ _ => rfl, rfl,
    fun _ => rfl, rfl, hash_dynamic_part_some h, ?_,
    hash_input_assembly_part_some h, ?_, ?_, ?_, ?_, ?_,
    hash_tessellation_part_some h, ?_, ?_, ?_, ?_, ?_, ?_, ?_, ?_, ?_⟩
  · intro b1 b2 b3 b4 x
    refine ⟨[x.depthCompareOp, x.depthTestEnable, x.depthWriteEnable,
      x.front.compareOp, x.front.depthFailOp, x.front.failOp, x.front.passOp,
      x.back.compareOp, x.back.depthFailOp, x.back.failOp, x.back.passOp,
      x.stencilTestEnable]
      ++ (if !b1 && x.depthBoundsTestEnable != 0 then
            [x.minDepthBounds, x.maxDepthBounds] else [])
      ++ (if x.stencilTestEnable != 0 then
            (if !b2 then [x.front.compareMask, x.back.compareMask] else [])
            ++ (if !b3 then [x.front.reference, x.back.reference] else [])
            ++ (if !b4 then [x.front.writeMask, x.back.writeMask] else [])
          else []), ?_⟩
    rw [hash_depth_stencil_part_some]
    simp [List.append_assoc]
  · intro b1 b2 x
    refine ⟨[x.depthClampEnable, x.frontFace, x.rasterizerDiscardEnable,
      x.polygonMode, x.depthBiasEnable]
      ++ (if x.depthBiasEnable != 0 && !b1 then
            [x.depthBiasClamp, x.depthBiasSlopeFactor, x.depthBiasConstantFactor]
          else [])
      ++ (if !b2 then [x.lineWidth] else []), ?_⟩
    rw [hash_rasterization_part_some]
    simp [List.append_assoc]
  · intro x
    refine ⟨[x.alphaToOneEnable, x.minSampleShading, x.rasterizationSamples,
      x.sampleShadingEnable]
      ++ (match x.pSampleMask with
          | some mask => mask.take ((x.rasterizationSamples + 31) / 32)
          | none => [0]), ?_⟩
    rw [hash_multisample_part_some]
    simp [List.append_assoc]
  · intro b1 b2 x
    refine ⟨[x.viewportCount]
      ++ (if !b1 then
            words_concat scissor_words ((x.pScissors.getD []).take x.scissorCount)
          else [])
      ++ (if !b2 then
            words_concat viewport_words ((x.pViewports.getD []).take x.viewportCount)
          else []), ?_⟩
    rw [hash_viewport_part_some]
    simp [List.append_assoc]
  · intro x
    refine ⟨[x.vertexBindingDescriptionCount]
      ++ words_concat vertex_attribute_words x.pVertexAttributeDescriptions
      ++ words_concat vertex_binding_words x.pVertexBindingDescriptions, ?_⟩
    rw [hash_vertex_input_part_some]
    simp [List.append_assoc]
  · intro b x
    refine ⟨[x.logicOpEnable, x.logicOp]
      ++ words_concat blend_attachment_words x.pAttachments
      ++ (if needs_blend_constants x.pAttachments && !b then
            x.blendConstants else []), ?_⟩
    rw [hash_color_blend_part_some]
    simp [List.append_assoc]
  · intro x heq
    have hl := congrArg List.length heq
    simp [hash_dynamic_part_some, hash_dynamic_part_none, List.length_append] at hl
  · intro b1 b2 b3 b4 x heq
    have hl := congrArg List.length heq
    simp [hash_depth_stencil_part_some, hash_depth_stencil_part_none,
      List.length_append] at hl
  · intro x heq
    have hl := congrArg List.length heq
    simp [hash_input_assembly_part_some, hash_input_assembly_part_none,
      List.length_append] at hl
  · intro b1 b2 x heq
    have hl := congrArg List.length heq
    simp [hash_rasterization_part_some, hash_rasterization_part_none,
      List.length_append] at hl
  · intro x heq
    have hl := congrArg List.length heq
    simp [hash_multisample_part_some, hash_multisample_part_none,
      List.length_append] at hl
  · intro b1 b2 x heq
    have hl := congrArg List.length heq
    simp [hash_viewport_part_some, hash_viewport_part_none,
      List.length_append] at hl
  · intro x heq
    have hl := congrArg List.length heq
    simp [hash_vertex_input_part_some, hash_vertex_input_part_none,
      List.length_append] at hl
  · intro b x heq
    have hl := congrArg List.length heq
    simp [hash_color_blend_part_some, hash_color_blend_part_none,
      List.length_append] at hl
  · intro x heq
    have hl := congrArg List.length heq
    simp [hash_tessellation_part_some, hash_tessellation_part_none,
      List.length_append] at hl

/-! ## Claim C8 -/

/-- C8: the subpass hash feed is exactly the claimed sequence — the five
header words, preserve indices, color references, input references,
resolve references only when `pResolveAttachments` is non-null (nothing
when null), then the depth-stencil reference's two words or a single
`u32(0)`.  The hypothesis pins the API contract that a present resolve
array has `colorAttachmentCount` entries. -/
theorem C8_subpass_feed (h : Hasher) (sub : SubpassDescription)
    (hres : ∀ r, sub.pResolveAttachments = some r →
      r.length = sub.colorAttachmentCount) :
    hash_subpass h sub = h ++ subpass_feed_spec sub := by
  simp only [hash_subpass, hu32,
    foldl_hasher_words hu32 (fun a => [a]) (fun _ _ => rfl),
    foldl_hasher_words hash_attachment_reference attachment_reference_words
      hash_attachment_reference_words_eq,
    words_concat_singleton]
  cases hr : sub.pResolveAttachments with
  | none =>
    cases hds : sub.pDepthStencilAttachment <;>
      simp [subpass_feed_spec, refs_feed_eq_words_concat, hr, hds, hu32,
        List.append_assoc]
  | some r =>
    have htake : r.take sub.colorAttachmentCount = r := by
      rw [← hres r hr]
      exact List.take_length r
    cases hds : sub.pDepthStencilAttachment <;>
      simp [subpass_feed_spec, refs_feed_eq_words_concat, hr, hds, htake, hu32,
        foldl_hasher_words hash_attachment_reference attachment_reference_words
          hash_attachment_reference_words_eq, List.append_assoc]

/-- C8 witness at a concrete subpass. -/
theorem C8_subpass_feed_witness :
    (∀ r, cex_subpass.pResolveAttachments = some r →
      r.length = cex_subpass.colorAttachmentCount) ∧
    hash_subpass [] cex_subpass = [] ++ subpass_feed_spec cex_subpass := by
  refine ⟨fun r hr => by cases hr; rfl, ?_⟩
  exact C8_subpass_feed [] cex_subpass (fun r hr => by cases hr; rfl)

/-! ## Claim C4 -/

theorem hash_depth_stencil_part_skip_bounds (b2 b3 b4 : Bool) (h : Hasher)
    (x : PipelineDepthStencilStateCreateInfo) (a b : Nat) :
    hash_depth_stencil_part true b2 b3 b4 h
        (some { x with minDepthBounds := a, maxDepthBounds := b }) =
      hash_depth_stencil_part true b2 b3 b4 h (some x) := by
  simp [hash_depth_stencil_part_some]

/-- C4: two graphics pipelines identical except in
`depthStencilState.minDepthBounds` / `maxDepthBounds` hash identically
when `VK_DYNAMIC_STATE_DEPTH_BOUNDS` is in the dynamic-state array; and
with depth-bounds not dynamic, the depth-stencil block feeds the two
fields exactly when `depthBoundsTestEnable` is set (it ignores them when
the enable is 0, and distinguishes them when it is nonzero). -/
theorem C4_depth_bounds_dynamic_invariance (t : HandleToHashMaps)
    (p : GraphicsPipelineCreateInfo) (x : PipelineDepthStencilStateCreateInfo)
    (a b a' b' : Nat)
    (hdyn : dynamic_state_contains p.pDynamicState VK_DYNAMIC_STATE_DEPTH_BOUNDS = true) :
    compute_hash_graphics_pipeline t
        { p with pDepthStencilState :=
            (some { x with minDepthBounds := a, maxDepthBounds := b }) } =
      compute_hash_graphics_pipeline t
        { p with pDepthStencilState :=
            (some { x with minDepthBounds := a', maxDepthBounds := b' }) } ∧
    (∀ (b2 b3 b4 : Bool) (h : Hasher),
      (x.depthBoundsTestEnable = 0 →
        hash_depth_stencil_part false b2 b3 b4 h
            (some { x with minDepthBounds := a, maxDepthBounds := b }) =
          hash_depth_stencil_part false b2 b3 b4 h
            (some { x with minDepthBounds := a', maxDepthBounds := b' })) ∧
      (x.depthBoundsTestEnable ≠ 0 → a ≠ a' →
        hash_depth_stencil_part false b2 b3 b4 h
            (some { x with minDepthBounds := a, maxDepthBounds := b }) ≠
          hash_depth_stencil_part false b2 b3 b4 h
            (some { x with minDepthBounds := a', maxDepthBounds := b' }))) := by
  constructor
  · simp only [compute_hash_graphics_pipeline, GraphicsPipelineCreateInfo.stageCount]
    simp only [hdyn, hash_depth_stencil_part_skip_bounds]
  · intro b2 b3 b4 h
    constructor
    · intro hen
      simp [hash_depth_stencil_part_some, hen]
    · intro hen hne heq
      have hb : (x.depthBoundsTestEnable != 0) = true := by
        simpa [bne_iff_ne] using hen
      simp only [hash_depth_stencil_part_some, hb, Bool.not_false, Bool.true_and,
        if_true, List.append_assoc, List.cons_append, List.nil_append] at heq
      have h2 := List.append_cancel_left heq
      simp at h2
      exact hne h2.1

/-- C4 witness at a concrete pipeline and tables; the two bit patterns
are those of the floats 0.0 / 0.5 and 0.0 / 1.0. -/
theorem C4_witness :
    dynamic_state_contains cex_dyn_pipe.pDynamicState VK_DYNAMIC_STATE_DEPTH_BOUNDS = true ∧
    compute_hash_graphics_pipeline cex_hash_tables { cex_dyn_pipe with pDepthStencilState := (some { cex_depth_stencil with minDepthBounds := 0, maxDepthBounds := 0 }) } =
      compute_hash_graphics_pipeline cex_hash_tables { cex_dyn_pipe with pDepthStencilState := (some { cex_depth_stencil with minDepthBounds := 1056964608, maxDepthBounds := 1065353216 }) } := by
  refine ⟨by decide, ?_⟩
  exact (C4_depth_bounds_dynamic_invariance cex_hash_tables cex_dyn_pipe
    cex_depth_stencil 0 0 1056964608 1065353216 (by decide)).1

/-! ## Claim C5 -/

theorem hash_color_blend_part_disabled_invariant (d : Bool) (h : Hasher)
    (cb : PipelineColorBlendStateCreateInfo)
    (pre post : List PipelineColorBlendAttachmentState)
    (att att' : PipelineColorBlendAttachmentState)
    (h1 : att.blendEnable = 0) (h2 : att'.blendEnable = 0) :
    hash_color_blend_part d h (some { cb with pAttachments := pre ++ att :: post }) =
      hash_color_blend_part d h (some { cb with pAttachments := pre ++ att' :: post }) := by
  simp [hash_color_blend_part_some, PipelineColorBlendStateCreateInfo.attachmentCount,
    words_concat_append, words_concat, blend_attachment_words, h1, h2,
    needs_blend_constants, List.any_append, List.any_cons, List.length_append]

/-- C5: two graphics pipelines identical except in the factor / op /
write-mask fields of a color-blend attachment whose `blendEnable` is 0
hash identically; a disabled attachment contributes its `blendEnable`
word followed by exactly one `u32(0)` and none of its other blend
fields. -/
theorem C5_blend_disabled_invariance (t : HandleToHashMaps)
    (p : GraphicsPipelineCreateInfo) (cb : PipelineColorBlendStateCreateInfo)
    (pre post : List PipelineColorBlendAttachmentState)
    (att att' : PipelineColorBlendAttachmentState)
    (h1 : att.blendEnable = 0) (h2 : att'.blendEnable = 0) :
    compute_hash_graphics_pipeline t
        { p with pColorBlendState := (some { cb with pAttachments := pre ++ att :: post }) } =
      compute_hash_graphics_pipeline t
        { p with pColorBlendState := (some { cb with pAttachments := pre ++ att' :: post }) } ∧
    (∀ (d : Bool) (h : Hasher),
      hash_color_blend_part d h (some { cb with pAttachments := [att] }) =
        h ++ [cb.flags, 1, cb.logicOpEnable, cb.logicOp, 0, 0]) := by
  constructor
  · have key : ∀ (d : Bool) (h : Hasher),
        hash_color_blend_part d h (some { cb with pAttachments := pre ++ att :: post }) =
          hash_color_blend_part d h (some { cb with pAttachments := pre ++ att' :: post }) :=
      fun d h => hash_color_blend_part_disabled_invariant d h cb pre post att att' h1 h2
    simp only [compute_hash_graphics_pipeline, GraphicsPipelineCreateInfo.stageCount]
    simp only [key]
  · intro d h
    simp [hash_color_blend_part_some, PipelineColorBlendStateCreateInfo.attachmentCount,
      words_concat, blend_attachment_words, h1, needs_blend_constants,
      List.append_assoc]

/-- C5 witness at a concrete pipeline and tables. -/
theorem C5_witness :
    cex_disabled_attachment.blendEnable = 0 ∧
    cex_disabled_attachment_alt.blendEnable = 0 ∧
    compute_hash_graphics_pipeline cex_hash_tables { cex_dyn_pipe with pColorBlendState := (some { cex_blend_state with pAttachments := [cex_disabled_attachment] }) } =
      compute_hash_graphics_pipeline cex_hash_tables { cex_dyn_pipe with pColorBlendState := (some { cex_blend_state with pAttachments := [cex_disabled_attachment_alt] }) } := by
  refine ⟨rfl, rfl, ?_⟩
  have := (C5_blend_disabled_invariance cex_hash_tables cex_dyn_pipe cex_blend_state
    [] [] cex_disabled_attachment cex_disabled_attachment_alt rfl rfl).1
  simpa using this

/-! ## Claim C2 -/

/-- C2: the claim is false on the code.  It states that every
`record_<kind>` raises a fatal error on a non-null `pNext` chain, but
`record_descriptor_set_layout` performs no `pNext` check: called with a
descriptor whose `pNext` is non-null, it succeeds and enqueues the
copy. -/
theorem C2_counterexample :
    cex_dsl_pnext.hasPNext = true ∧
    record_descriptor_set_layout [] 1 cex_dsl_pnext =
      .ok [⟨1, WorkInfo.descriptorSetLayout (copy_descriptor_set_layout cex_dsl_pnext)⟩] :=
  ⟨rfl, rfl⟩

/-- C2 (amended): `record_sampler`, `record_shader_module`,
`record_render_pass`, `record_graphics_pipeline` and
`record_compute_pipeline` raise a fatal error on a non-null `pNext`
chain without enqueueing anything; `record_descriptor_set_layout` and
`record_pipeline_layout` perform no such check and enqueue the copied
descriptor unconditionally. -/
theorem C2_amended_pnext_checks (queue : List WorkItem) (handle : Nat) :
    (∀ ci : SamplerCreateInfo, ci.hasPNext = true →
      record_sampler queue handle ci = .error .pnextUnsupported) ∧
    (∀ ci : ShaderModuleCreateInfo, ci.hasPNext = true →
      record_shader_module queue handle ci = .error .pnextUnsupported) ∧
    (∀ ci : RenderPassCreateInfo, ci.hasPNext = true →
      record_render_pass queue handle ci = .error .pnextUnsupported) ∧
    (∀ ci : GraphicsPipelineCreateInfo, ci.hasPNext = true →
      record_graphics_pipeline queue handle ci = .error .pnextUnsupported) ∧
    (∀ ci : ComputePipelineCreateInfo, ci.hasPNext = true →
      record_compute_pipeline queue handle ci = .error .pnextUnsupported) ∧
    (∀ ci : DescriptorSetLayoutCreateInfo,
      record_descriptor_set_layout queue handle ci =
        .ok (queue ++ [⟨handle, .descriptorSetLayout (copy_descriptor_set_layout ci)⟩])) ∧
    (∀ ci : PipelineLayoutCreateInfo,
      record_pipeline_layout queue handle ci =
        .ok (queue ++ [⟨handle, .pipelineLayout (copy_pipeline_layout ci)⟩])) := by
  refine ⟨?_, ?_, ?_, ?_, ?_, fun _ => rfl, fun _ => rfl⟩ <;>
    intro ci hp <;>
    simp [record_sampler, record_shader_module, record_render_pass,
      record_graphics_pipeline, record_compute_pipeline, hp]

/-- C2 witness: a checked kind rejects a non-null `pNext`; an unchecked
kind enqueues it. -/
theorem C2_witness :
    ({ cex_sampler with hasPNext := true } : SamplerCreateInfo).hasPNext = true ∧
    record_sampler [] 1 { cex_sampler with hasPNext := true } = .error .pnextUnsupported ∧
    record_descriptor_set_layout [] 2 cex_dsl_pnext =
      .ok ([] ++ [⟨2, WorkInfo.descriptorSetLayout (copy_descriptor_set_layout cex_dsl_pnext)⟩]) := by
  refine ⟨rfl, ?_, ?_⟩
  · exact (C2_amended_pnext_checks [] 1).1 _ rfl
  · exact (C2_amended_pnext_checks [] 2).2.2.2.2.2.1 cex_dsl_pnext

/-! ## Claim C10 -/

/-- C10: the code contradicts the claim (and its own surrounding
checks).  At a descriptor with a present vertex-input state (null
`pNext`) and an absent color-blend state, `copy_graphics_pipeline`
reads `info->pColorBlendState->pNext` inside the block guarded by
`info->pVertexInputState` (fossilize.cpp lines 2008-2013) — a null
dereference, surfaced here as the explicit `nullDereference` error. -/
theorem C10_null_colorblend_deref :
    cex_vi_pipe.pVertexInputState.isSome = true ∧
    cex_vi_pipe.pColorBlendState = none ∧
    (∀ vi, cex_vi_pipe.pVertexInputState = some vi → vi.hasPNext = false) ∧
    copy_graphics_pipeline cex_vi_pipe = .error .nullDereference := by
  refine ⟨rfl, rfl, ?_, rfl⟩
  intro vi hvi
  cases hvi
  rfl

/-! ## Claim C7 -/

/-- C7: every `get_hash_for_<kind>` raises a fatal error on a handle
absent from its handle-to-hash table; and when hashing of a queued item
fails (e.g. a set layout referencing an unrecorded sampler), the worker
aborts the item before anything is persisted — the resulting state is
unchanged, so neither the handle-to-hash table nor the store gains an
entry. -/
theorem C7_unregistered_handle :
    (∀ (t : HandleToHashMaps) (n : Nat), t.sampler_to_index.lookup n = none →
      get_hash_for_sampler t n = .error .handleNotRegistered) ∧
    (∀ (t : HandleToHashMaps) (n : Nat),
      t.descriptor_set_layout_to_index.lookup n = none →
      get_hash_for_descriptor_set_layout t n = .error .handleNotRegistered) ∧
    (∀ (t : HandleToHashMaps) (n : Nat), t.pipeline_layout_to_index.lookup n = none →
      get_hash_for_pipeline_layout t n = .error .handleNotRegistered) ∧
    (∀ (t : HandleToHashMaps) (n : Nat), t.shader_module_to_index.lookup n = none →
      get_hash_for_shader_module t n = .error .handleNotRegistered) ∧
    (∀ (t : HandleToHashMaps) (n : Nat), t.render_pass_to_index.lookup n = none →
      get_hash_for_render_pass t n = .error .handleNotRegistered) ∧
    (∀ (t : HandleToHashMaps) (n : Nat), t.graphics_pipeline_to_index.lookup n = none →
      get_hash_for_graphics_pipeline_handle t n = .error .handleNotRegistered) ∧
    (∀ (t : HandleToHashMaps) (n : Nat), t.compute_pipeline_to_index.lookup n = none →
      get_hash_for_compute_pipeline_handle t n = .error .handleNotRegistered) ∧
    (∀ (s : RecorderState) (item : WorkItem) (e : RecordErr),
      work_item_hash s.tables item.info = .error e → record_task_step s item = s) := by
  refine ⟨?_, ?_, ?_, ?_, ?_, ?_, ?_, ?_⟩
  · intro t n hn
    simp [get_hash_for_sampler, hn]
  · intro t n hn
    simp [get_hash_for_descriptor_set_layout, hn]
  · intro t n hn
    simp [get_hash_for_pipeline_layout, hn]
  · intro t n hn
    simp [get_hash_for_shader_module, hn]
  · intro t n hn
    simp [get_hash_for_render_pass, hn]
  · intro t n hn
    simp [get_hash_for_graphics_pipeline_handle, hn]
  · intro t n hn
    simp [get_hash_for_compute_pipeline_handle, hn]
  · intro s item e he
    obtain ⟨handle, info⟩ := item
    cases info <;> simp_all [work_item_hash, record_task_step]

/-- C7 witness: an unregistered sampler handle makes `get_hash_for_sampler`
throw, and a queued set layout referencing it is dropped without any
state change. -/
theorem C7_witness :
    work_item_hash empty_recorder_state.tables (.descriptorSetLayout cex_bad_layout) =
      .error .handleNotRegistered ∧
    record_task_step empty_recorder_state ⟨3, .descriptorSetLayout cex_bad_layout⟩ =
      empty_recorder_state ∧
    empty_tables.sampler_to_index.lookup 5 = none ∧
    get_hash_for_sampler empty_tables 5 = .error .handleNotRegistered := by
  refine ⟨rfl, ?_, rfl, ?_⟩
  · exact C7_unregistered_handle.2.2.2.2.2.2.2 empty_recorder_state
      ⟨3, .descriptorSetLayout cex_bad_layout⟩ .handleNotRegistered rfl
  · exact C7_unregistered_handle.1 empty_tables 5 rfl

/-! ## Claim C6 -/

theorem lookup_map_value {β γ : Type} (f : β → γ) :
    ∀ (l : List (Nat × β)) (k : Nat),
      (l.map (fun p => (p.1, f p.2))).lookup k = (l.lookup k).map f
  | [], _ => rfl
  | (a, b) :: l, k => by
    by_cases hk : (k == a) = true <;>
      simp [List.lookup, hk, lookup_map_value f l k]

/-- C6: when the worker processes the same descriptor content under two
distinct handles (the content hashing to `h` both times, with `h` not
yet stored, and the remap of the stored copy succeeding), exactly one
entry is inserted into that kind's store, and afterwards both handles
map to `h` in the kind's handle-to-hash table.  The statement covers
all seven descriptor kinds through `WorkInfo`. -/
theorem C6_dedup (s0 : RecorderState) (info : WorkInfo) (n1 n2 h : Nat)
    (info' : WorkInfo) (hne : n1 ≠ n2)
    (hh0 : work_item_hash s0.tables info = .ok h)
    (hmiss : (store_entries s0 info).lookup h = none)
    (hh1 : work_item_hash (record_task_step s0 ⟨n1, info⟩).tables info = .ok h)
    (hremap : remap_work_info (record_task_step s0 ⟨n1, info⟩).tables info = .ok info') :
    store_entries (record_task_step (record_task_step s0 ⟨n1, info⟩) ⟨n2, info⟩) info
        = (h, info') :: store_entries s0 info ∧
    (handle_map (record_task_step (record_task_step s0 ⟨n1, info⟩) ⟨n2, info⟩)
        info).lookup n1 = some h ∧
    (handle_map (record_task_step (record_task_step s0 ⟨n1, info⟩) ⟨n2, info⟩)
        info).lookup n2 = some h := by
  have hne' : (n1 == n2) = false := by
    simp [hne]
  cases info with
  | sampler ci =>
    simp only [work_item_hash, Except.ok.injEq] at hh0
    have hm : s0.samplers.lookup h = none := by
      have := hmiss
      simp only [store_entries, lookup_map_value, Option.map_eq_none'] at this
      exact this
    simp only [remap_work_info, Except.ok.injEq] at hremap
    subst hremap
    subst hh0
    simp [record_task_step, store_entries, handle_map, hm, List.lookup, hne']
  | shaderModule ci =>
    simp only [work_item_hash, Except.ok.injEq] at hh0
    have hm : s0.shader_modules.lookup h = none := by
      have := hmiss
      simp only [store_entries, lookup_map_value, Option.map_eq_none'] at this
      exact this
    simp only [remap_work_info, Except.ok.injEq] at hremap
    subst hremap
    subst hh0
    simp [record_task_step, store_entries, handle_map, remap_shader_module_ci, hm,
      List.lookup, hne']
  | renderPass ci =>
    simp only [work_item_hash, Except.ok.injEq] at hh0
    have hm : s0.render_passes.lookup h = none := by
      have := hmiss
      simp only [store_entries, lookup_map_value, Option.map_eq_none'] at this
      exact this
    simp only [remap_work_info, Except.ok.injEq] at hremap
    subst hremap
    subst hh0
    simp [record_task_step, store_entries, handle_map, hm, List.lookup, hne']
  | descriptorSetLayout ci =>
    simp only [work_item_hash] at hh0 hh1
    have hm : s0.descriptor_sets.lookup h = none := by
      have := hmiss
      simp only [store_entries, lookup_map_value, Option.map_eq_none'] at this
      exact this
    simp only [record_task_step, work_item_hash, hh0, hm, remap_work_info,
      Option.isSome_none, Bool.false_eq_true, if_false] at hh1 hremap ⊢
    rcases hrm : remap_descriptor_set_layout_ci
        { s0.tables with descriptor_set_layout_to_index := (n1, h) :: s0.tables.descriptor_set_layout_to_index } ci with e | ci'
    · simp only [hrm] at hremap
      simp at hremap
    · simp only [hrm] at hh1 hremap ⊢
      simp only [Except.ok.injEq] at hremap
      subst hremap
      simp [hh1, store_entries, handle_map, List.lookup, hne']
  | pipelineLayout ci =>
    simp only [work_item_hash] at hh0 hh1
    have hm : s0.pipeline_layouts.lookup h = none := by
      have := hmiss
      simp only [store_entries, lookup_map_value, Option.map_eq_none'] at this
      exact this
    simp only [record_task_step, work_item_hash, hh0, hm, remap_work_info,
      Option.isSome_none, Bool.false_eq_true, if_false] at hh1 hremap ⊢
    rcases hrm : remap_pipeline_layout_ci
        { s0.tables with pipeline_layout_to_index := (n1, h) :: s0.tables.pipeline_layout_to_index } ci with e | ci'
    · simp only [hrm] at hremap
      simp at hremap
    · simp only [hrm] at hh1 hremap ⊢
      simp only [Except.ok.injEq] at hremap
      subst hremap
      simp [hh1, store_entries, handle_map, List.lookup, hne']
  | graphicsPipeline ci =>
    simp only [work_item_hash] at hh0 hh1
    have hm : s0.graphics_pipelines.lookup h = none := by
      have := hmiss
      simp only [store_entries, lookup_map_value, Option.map_eq_none'] at this
      exact this
    simp only [record_task_step, work_item_hash, hh0, hm, remap_work_info,
      Option.isSome_none, Bool.false_eq_true, if_false] at hh1 hremap ⊢
    rcases hrm : remap_graphics_pipeline_ci
        { s0.tables with graphics_pipeline_to_index := (n1, h) :: s0.tables.graphics_pipeline_to_index } ci with e | ci'
    · simp only [hrm] at hremap
      simp at hremap
    · simp only [hrm] at hh1 hremap ⊢
      simp only [Except.ok.injEq] at hremap
      subst hremap
      simp [hh1, store_entries, handle_map, List.lookup, hne']
  | computePipeline ci =>
    simp only [work_item_hash] at hh0 hh1
    have hm : s0.compute_pipelines.lookup h = none := by
      have := hmiss
      simp only [store_entries, lookup_map_value, Option.map_eq_none'] at this
      exact this
    simp only [record_task_step, work_item_hash, hh0, hm, remap_work_info,
      Option.isSome_none, Bool.false_eq_true, if_false] at hh1 hremap ⊢
    rcases hrm : remap_compute_pipeline_ci
        { s0.tables with compute_pipeline_to_index := (n1, h) :: s0.tables.compute_pipeline_to_index } ci with e | ci'
    · simp only [hrm] at hremap
      simp at hremap
    · simp only [hrm] at hh1 hremap ⊢
      simp only [Except.ok.injEq] at hremap
      subst hremap
      simp [hh1, store_entries, handle_map, List.lookup, hne']

/-- C6 witness: the same sampler content under handles 1 and 2. -/
theorem C6_witness :
    store_entries
        (record_task_step (record_task_step empty_recorder_state
          ⟨1, .sampler cex_sampler⟩) ⟨2, .sampler cex_sampler⟩) (.sampler cex_sampler)
      = (compute_hash_sampler cex_sampler, .sampler cex_sampler)
          :: store_entries empty_recorder_state (.sampler cex_sampler) ∧
    (handle_map (record_task_step (record_task_step empty_recorder_state
        ⟨1, .sampler cex_sampler⟩) ⟨2, .sampler cex_sampler⟩)
      (.sampler cex_sampler)).lookup 1 = some (compute_hash_sampler cex_sampler) ∧
    (handle_map (record_task_step (record_task_step empty_recorder_state
        ⟨1, .sampler cex_sampler⟩) ⟨2, .sampler cex_sampler⟩)
      (.sampler cex_sampler)).lookup 2 = some (compute_hash_sampler cex_sampler) := by
  exact C6_dedup empty_recorder_state (.sampler cex_sampler) 1 2
    (compute_hash_sampler cex_sampler) (.sampler cex_sampler)
    (by decide) rfl rfl rfl rfl

/-! ## Claim C9 -/

theorem base64_index_base64_char : ∀ v < 64, base64_index (base64_char v) = v := by
  decide

theorem base64_char_ne_61 : ∀ v < 64, base64_char v ≠ 61 := by
  decide

theorem base64_index_61 : base64_index 61 = 0 := by
  decide

theorem decode_base64_zero (s : List Nat) : decode_base64 0 s = [] := by
  rw [decode_base64.eq_def]
  simp

theorem decode_group_pad2 (code len : Nat) (rest : List Nat)
    ( _hc : code < 2^24) (hlen : len ≠ 0) :
    decode_base64 len (base64_char (code / 2^18 % 64) :: base64_char (code / 2^12 % 64) ::
        61 :: 61 :: rest) =
      code / 2^16 % 256 :: decode_base64 (len - 1) rest := by
  have h1 := base64_index_base64_char (code / 2^18 % 64) (Nat.mod_lt _ (by omega))
  have h2 := base64_index_base64_char (code / 2^12 % 64) (Nat.mod_lt _ (by omega))
  rw [decode_base64, dif_neg hlen]
  simp only [h1, h2, base64_index_61, List.cons.injEq, and_self, if_true, ite_true,
    and_true, true_and]
  omega

theorem decode_group_pad1 (code len : Nat) (rest : List Nat)
    ( _hc : code < 2^24) (hlen : len ≠ 0) :
    decode_base64 len (base64_char (code / 2^18 % 64) :: base64_char (code / 2^12 % 64) ::
        base64_char (code / 2^6 % 64) :: 61 :: rest) =
      code / 2^16 % 256 :: code / 2^8 % 256 :: decode_base64 (len - 2) rest := by
  have h1 := base64_index_base64_char (code / 2^18 % 64) (Nat.mod_lt _ (by omega))
  have h2 := base64_index_base64_char (code / 2^12 % 64) (Nat.mod_lt _ (by omega))
  have h3 := base64_index_base64_char (code / 2^6 % 64) (Nat.mod_lt _ (by omega))
  have hn3 := base64_char_ne_61 (code / 2^6 % 64) (Nat.mod_lt _ (by omega))
  rw [decode_base64, dif_neg hlen]
  simp only [h1, h2, h3, hn3, base64_index_61, false_and, and_false, if_false, ite_false,
    List.cons.injEq, and_true, true_and, and_self, if_true, ite_true]
  omega

theorem decode_group_full (code len : Nat) (rest : List Nat)
    ( _hc : code < 2^24) (hlen : len ≠ 0) :
    decode_base64 len (base64_char (code / 2^18 % 64) :: base64_char (code / 2^12 % 64) ::
        base64_char (code / 2^6 % 64) :: base64_char (code % 64) :: rest) =
      code / 2^16 % 256 :: code / 2^8 % 256 :: code % 256 ::
        decode_base64 (len - 3) rest := by
  have h1 := base64_index_base64_char (code / 2^18 % 64) (Nat.mod_lt _ (by omega))
  have h2 := base64_index_base64_char (code / 2^12 % 64) (Nat.mod_lt _ (by omega))
  have h3 := base64_index_base64_char (code / 2^6 % 64) (Nat.mod_lt _ (by omega))
  have h4 := base64_index_base64_char (code % 64) (Nat.mod_lt _ (by omega))
  have hn3 := base64_char_ne_61 (code / 2^6 % 64) (Nat.mod_lt _ (by omega))
  have hn4 := base64_char_ne_61 (code % 64) (Nat.mod_lt _ (by omega))
  rw [decode_base64, dif_neg hlen]
  simp only [h1, h2, h3, h4, hn3, hn4, false_and, and_false, if_false, ite_false,
    List.cons.injEq, and_true, true_and]
  omega

/-- C9: decoding the base64 encoding of any byte sequence, reading back
exactly the original number of bytes, recovers the bytes — including
lengths that are not multiples of three (one or two padding
characters). -/
theorem C9_base64_roundtrip :
    ∀ (d : List Nat), (∀ x ∈ d, x < 256) →
      decode_base64 d.length (encode_base64 d) = d
  | [], _ => by
    rw [encode_base64, List.length_nil, decode_base64_zero]
  | [b0], hd => by
    have hb0 : b0 < 256 := hd b0 (by simp)
    simp only [encode_base64, List.length_cons, List.length_nil]
    rw [decode_group_pad2 (b0 * 2^16) (0 + 1) [] (by omega) (by omega)]
    have e1 : (0 + 1 : Nat) - 1 = 0 := rfl
    rw [e1, decode_base64_zero]
    simp only [List.cons.injEq, and_true]
    omega
  | [b0, b1], hd => by
    have hb0 : b0 < 256 := hd b0 (by simp)
    have hb1 : b1 < 256 := hd b1 (by simp)
    simp only [encode_base64, List.length_cons, List.length_nil]
    rw [decode_group_pad1 (b0 * 2^16 + b1 * 2^8) (0 + 1 + 1) [] (by omega) (by omega)]
    have e1 : (0 + 1 + 1 : Nat) - 2 = 0 := rfl
    rw [e1, decode_base64_zero]
    simp only [List.cons.injEq, and_true]
    omega
  | b0 :: b1 :: b2 :: rest, hd => by
    have hb0 : b0 < 256 := hd b0 (by simp)
    have hb1 : b1 < 256 := hd b1 (by simp)
    have hb2 : b2 < 256 := hd b2 (by simp)
    have hrest : ∀ x ∈ rest, x < 256 := fun x hx => hd x (by simp [hx])
    have ih := C9_base64_roundtrip rest hrest
    simp only [encode_base64, List.length_cons]
    rw [decode_group_full (b0 * 2^16 + b1 * 2^8 + b2) (rest.length + 1 + 1 + 1)
      (encode_base64 rest) (by omega) (by omega)]
    have e1 : rest.length + 1 + 1 + 1 - 3 = rest.length := by omega
    rw [e1, ih]
    simp only [List.cons.injEq, and_true]
    omega

/-- C9 witness: a seven-byte input (one full group plus a one-byte tail)
and a one-byte input (two padding characters). -/
theorem C9_base64_roundtrip_witness :
    (∀ x ∈ [10, 200, 30, 255, 0, 7, 99], x < 256) ∧
    decode_base64 ([10, 200, 30, 255, 0, 7, 99] : List Nat).length
        (encode_base64 [10, 200, 30, 255, 0, 7, 99]) = [10, 200, 30, 255, 0, 7, 99] ∧
    decode_base64 ([255] : List Nat).length (encode_base64 [255]) = [255] := by
  refine ⟨by decide, ?_, ?_⟩
  · exact C9_base64_roundtrip [10, 200, 30, 255, 0, 7, 99] (by decide)
  · exact C9_base64_roundtrip [255] (by decide)

/-! ## Claim C1 -/

/-- Under the accept-everything interface a replayed sampler section
never fails. -/
theorem parse_samplers_accept_ok (st : ReplayMaps) (l : List (Nat × SamplerJson)) :
    ∃ st', parse_samplers accept_all_iface st l = .ok st' := by
  simp only [parse_samplers]
  apply foldlM_except_ok_mem
  intro b a _
  by_cases hmem : (b.replayed_samplers.lookup a.1).isSome = true
  · exact ⟨b, by simp [hmem, except_pure_ok]⟩
  · refine ⟨{ b with replayed_samplers := (a.1, a.1) :: b.replayed_samplers }, ?_⟩
    simp [hmem, accept_all_iface, except_pure_ok]

/-- Under the accept-everything interface a replayed set-layout section
never fails. -/
theorem parse_descriptor_set_layouts_accept_ok (st : ReplayMaps)
    (l : List (Nat × SetLayoutJson)) :
    ∃ st', parse_descriptor_set_layouts accept_all_iface st l = .ok st' := by
  simp only [parse_descriptor_set_layouts]
  apply foldlM_except_ok_mem
  intro b a _
  by_cases hmem : (b.replayed_descriptor_set_layouts.lookup a.1).isSome = true
  · exact ⟨b, by simp [hmem, except_pure_ok]⟩
  · refine ⟨{ b with
      replayed_samplers := (parse_descriptor_set_bindings b.replayed_samplers a.2.bindings).2
      replayed_descriptor_set_layouts :=
        (a.1, a.1) :: b.replayed_descriptor_set_layouts }, ?_⟩
    simp [hmem, accept_all_iface, except_pure_ok]

/-- Under the accept-everything interface a replayed pipeline-layout
section never fails. -/
theorem parse_pipeline_layouts_accept_ok (st : ReplayMaps)
    (l : List (Nat × PipelineLayoutJson)) :
    ∃ st', parse_pipeline_layouts accept_all_iface st l = .ok st' := by
  simp only [parse_pipeline_layouts]
  apply foldlM_except_ok_mem
  intro b a _
  by_cases hmem : (b.replayed_pipeline_layouts.lookup a.1).isSome = true
  · exact ⟨b, by simp [hmem, except_pure_ok]⟩
  · refine ⟨{ b with
      replayed_descriptor_set_layouts :=
        (parse_set_layouts b.replayed_descriptor_set_layouts a.2.setLayouts).2
      replayed_pipeline_layouts := (a.1, a.1) :: b.replayed_pipeline_layouts }, ?_⟩
    simp [hmem, accept_all_iface, except_pure_ok]

/-- Under the accept-everything interface a replayed render-pass
section never fails. -/
theorem parse_render_passes_accept_ok (st : ReplayMaps)
    (l : List (Nat × RenderPassJson)) :
    ∃ st', parse_render_passes accept_all_iface st l = .ok st' := by
  simp only [parse_render_passes]
  apply foldlM_except_ok_mem
  intro b a _
  by_cases hmem : (b.replayed_samplers.lookup a.1).isSome = true
  · exact ⟨b, by simp [hmem, except_pure_ok]⟩
  · refine ⟨{ b with
      replayed_render_passes := (a.1, a.1) :: b.replayed_render_passes }, ?_⟩
    simp [hmem, accept_all_iface, except_pure_ok]

/-- Stages whose module handle is the null handle need no shader-module
resolution, so parsing them never fails. -/
theorem parse_stages_zero_ok (parseFn : ReplayMaps → Document → Except ReplayErr ReplayMaps)
    (resolver : ResolverInterface) (st : ReplayMaps) (stages : List StageJson)
    (hz : ∀ s ∈ stages, s.module = 0) :
    ∃ res, parse_stages parseFn resolver st stages = .ok res := by
  simp only [parse_stages]
  apply foldlM_except_ok_mem
  intro b a ha
  refine ⟨(b.1 ++
    [{ hasPNext := false, flags := a.flags, stage := a.stage, module := 0,
       pName := a.name,
       pSpecializationInfo :=
         a.specializationInfo.map parse_specialization_info }], b.2), ?_⟩
  simp [hz a ha, except_pure_ok]

/-- A graphics-pipeline section whose entries have the null base
pipeline handle and only null-module stages replays without error under
the accept-everything interface. -/
theorem parse_graphics_pipelines_zero_ok
    (parseFn : ReplayMaps → Document → Except ReplayErr ReplayMaps)
    (resolver : ResolverInterface) (st : ReplayMaps)
    (l : List (Nat × GraphicsPipelineJson))
    (hl : ∀ e ∈ l, e.2.basePipelineHandle = 0 ∧ ∀ s ∈ e.2.stages, s.module = 0) :
    ∃ st', parse_graphics_pipelines accept_all_iface parseFn resolver st l = .ok st' := by
  simp only [parse_graphics_pipelines]
  apply foldlM_except_ok_mem
  intro b a ha
  obtain ⟨hb0, hm0⟩ := hl a ha
  by_cases hmem : (b.replayed_graphics_pipelines.lookup a.1).isSome = true
  · exact ⟨b, by simp [hmem, except_pure_ok]⟩
  · simp only [hmem, Bool.false_eq_true, if_false, hb0, gt_iff_lt, Nat.lt_irrefl,
      ite_false, pure_bind]
    obtain ⟨res, hres⟩ := parse_stages_zero_ok parseFn resolver _ a.2.stages hm0
    rw [hres, except_ok_bind]
    simp only [accept_all_iface, except_pure_ok]
    exact ⟨_, rfl⟩

/-- C1 (amended): a graphics-pipeline document serialized from a stored
pipeline whose base pipeline handle is null and whose stages all carry
the null shader-module handle replays successfully against the
accept-everything creator interface and the empty resolver.  (The
unamended claim fails: the emitted document carries no `shaderModules`
section, so any stage with a real module reference makes the replay
throw.) -/
theorem C1_amended_replay_ok (fuel : Nat) (impl : RecorderState) (hash : Nat)
    (pipe : GraphicsPipelineCreateInfo)
    (hpipe : impl.graphics_pipelines.lookup hash = some pipe)
    (hbase : pipe.basePipelineHandle = 0)
    (hmods : ∀ s ∈ pipe.pStages, s.module = 0) :
    ∃ st', state_replayer_parse (fuel + 1) accept_all_iface empty_resolver
        initial_replay_maps (serialize_graphics_pipeline impl hash) = .ok st' := by
  have hver : (serialize_graphics_pipeline impl hash).version = FOSSILIZE_FORMAT_VERSION := by
    simp [serialize_graphics_pipeline, serialize_obj, hpipe]
  have hsm : (serialize_graphics_pipeline impl hash).shaderModules = none := by
    simp [serialize_graphics_pipeline, serialize_obj, hpipe]
  have hcp : (serialize_graphics_pipeline impl hash).computePipelines = none := by
    simp [serialize_graphics_pipeline, serialize_obj, hpipe]
  have hgp : (serialize_graphics_pipeline impl hash).graphicsPipelines =
      some [(hash, json_value_graphics_pipeline pipe)] := by
    simp [serialize_graphics_pipeline, serialize_obj, add_json, hpipe]
  have hsam : (serialize_graphics_pipeline impl hash).samplers.isSome = true := by
    simp [serialize_graphics_pipeline, serialize_obj, hpipe]
  have hset : (serialize_graphics_pipeline impl hash).setLayouts.isSome = true := by
    simp [serialize_graphics_pipeline, serialize_obj, hpipe]
  have hplo : (serialize_graphics_pipeline impl hash).pipelineLayouts.isSome = true := by
    simp [serialize_graphics_pipeline, serialize_obj, hpipe]
  have hrpo : (serialize_graphics_pipeline impl hash).renderPasses.isSome = true := by
    simp [serialize_graphics_pipeline, serialize_obj, hpipe]
  obtain ⟨sa, hsa⟩ := Option.isSome_iff_exists.mp hsam
  obtain ⟨se, hse⟩ := Option.isSome_iff_exists.mp hset
  obtain ⟨pl, hpl⟩ := Option.isSome_iff_exists.mp hplo
  obtain ⟨rp, hrp⟩ := Option.isSome_iff_exists.mp hrpo
  simp only [state_replayer_parse]
  simp only [hver, hsm, hsa, hse, hpl, hrp, hcp, hgp, ne_eq, eq_self_iff_true,
    not_true_eq_false, ite_false, if_false, pure_bind]
  obtain ⟨st1, h1⟩ := parse_samplers_accept_ok initial_replay_maps sa
  rw [h1, except_ok_bind]
  obtain ⟨st2, h2⟩ := parse_descriptor_set_layouts_accept_ok st1 se
  rw [h2, except_ok_bind]
  obtain ⟨st3, h3⟩ := parse_pipeline_layouts_accept_ok st2 pl
  rw [h3, except_ok_bind]
  obtain ⟨st4, h4⟩ := parse_render_passes_accept_ok st3 rp
  rw [h4, except_ok_bind]
  apply parse_graphics_pipelines_zero_ok
  intro e he
  rw [List.mem_singleton] at he
  subst he
  refine ⟨by simpa [json_value_graphics_pipeline] using hbase, ?_⟩
  intro s hs
  simp only [json_value_graphics_pipeline] at hs
  obtain ⟨s0, hs0, rfl⟩ := List.mem_map.mp hs
  simp [stage_json, hmods s0 hs0]

/-- C1 witness: the one-pipeline store `cex_store_zero`, whose single
stage has the null module handle, satisfies every hypothesis of the
amended theorem and its serialized document replays successfully. -/
theorem C1_witness :
    cex_store_zero.graphics_pipelines.lookup 100 = some cex_pipe_zero ∧
    cex_pipe_zero.basePipelineHandle = 0 ∧
    (∀ s ∈ cex_pipe_zero.pStages, s.module = 0) ∧
    ∃ st', state_replayer_parse (0 + 1) accept_all_iface empty_resolver
        initial_replay_maps (serialize_graphics_pipeline cex_store_zero 100) = .ok st' := by
  refine ⟨rfl, rfl, by decide, ?_⟩
  exact C1_amended_replay_ok 0 cex_store_zero 100 cex_pipe_zero rfl rfl (by decide)

/-- C1 counterexample: the store `cex_store` holds the graphics
pipeline of hash 100 whose stage references shader module 5, but the
serialized document carries no `shaderModules` section, so the replay
against the empty resolver throws the missing-shader-module error
instead of succeeding. -/
theorem C1_counterexample :
    state_replayer_parse 1 accept_all_iface empty_resolver initial_replay_maps
      (serialize_graphics_pipeline cex_store 100) =
      .error .shaderModuleNotFound := by
  rfl

end Fossilize
